import Mathlib

/-!
# WiFiMgr: connection supervisor and NTP time acquisition

A shallow embedding of `src/WiFiMgr.h` / `src/WiFiMgr.cpp`.

* The object's fields and the three function-level `static uint32_t` counters
  (`reconnect_timer`, `attempt_count`, `time_initialization_timer`) are the
  fields of one record, `WiFiMgr`.
* Every member function is a pure function from the record (and the answers
  the external services give during the call) to the new record and the list
  of external calls and log lines it performs, in program order.
* `uint32_t` values are natural numbers; the increment and the subtraction of
  the source are taken modulo `2^32`.
-/

/-- The enumeration `WIFIMGR_STATE` of `WiFiMgr.h`. -/
inductive WIFIMGR_STATE where
  | WIFIMGR_INITIAL
  | WIFIMGR_CONNECTING
  | WIFIMGR_CONNECTED
  | WIFIMGR_SOFT_AP
  | WIFIMGR_DISCONNECTED_REQUESTED
  | WIFIMGR_DISCONNECTED_LOSS
  deriving DecidableEq, Repr

open WIFIMGR_STATE

/-- The C `struct tm` filled by `getLocalTime`. -/
structure tm where
  tm_sec : Int
  tm_min : Int
  tm_hour : Int
  tm_mday : Int
  tm_mon : Int
  tm_year : Int
  tm_wday : Int
  tm_yday : Int
  tm_isdst : Int
  deriving DecidableEq, Repr

/-- The text of a log line (`log_i`, `log_e`), with the attempt number where the
source prints it.  Addresses and status codes printed by the source come from
the link driver and are left out. -/
inductive LogLine where
  | disconnected_as_requested
  | failed_to_obtain_time
  | failed_to_format_time
  | softAP_initialized
  | client_connection_started
  | connected_at_attempt (attempt_count : Nat)
  | connection_loss
  | internal_status
  | attempt_number (attempt_count : Nat)
  | cant_connect_after (attempt_count : Nat)
  | time_initialized_at (buf : String)
  deriving DecidableEq, Repr

/-- A call made to an external service: the link driver (`WiFi`), the clock
service, the task scheduler, the logger. -/
inductive Call where
  | WiFi_disconnect
  | WiFi_begin (ssid password : String)
  | WiFi_softAP (ssid : String) (ap_pass : Option String)
  | configTime (gmt_offset daylight_offset : Int) (server1 : String)
      (server2 server3 : Option String)
  | getLocalTime
  | xTaskCreate
  | log (line : LogLine)
  deriving DecidableEq, Repr

/-- What the clock service answers during one call: the result of
`getLocalTime` (`none` when it returns false) and the behaviour of
`strftime(buf, 64, format, &timeinfo)`, as the number of bytes written and the
content of `buf`. -/
structure Clock where
  getLocalTime : Option tm
  strftime : String → tm → Nat × String

/-- The value `2^32` of the `uint32_t` modulus. -/
def UINT32_MOD : Nat := 4294967296

/-- The `++` of a `uint32_t`. -/
def u32_incr (a : Nat) : Nat := (a + 1) % UINT32_MOD

/-- The `-=` of two `uint32_t`. -/
def u32_sub (a b : Nat) : Nat := (a + (UINT32_MOD - b % UINT32_MOD)) % UINT32_MOD

/-- The constant `sleep_timer_const` of `WiFiMgr.h`. -/
def sleep_timer_const : Nat := 500

/-- The class `WiFiMgr`, with the `static` locals of `ReconnectAttempt`
(`reconnect_timer`, `attempt_count`) and of `TimeCheck`
(`time_initialization_timer`). -/
structure WiFiMgr where
  _running : Bool
  _ap_mode : Bool
  _ssid : String
  _password : String
  _state : WIFIMGR_STATE
  _time_management : Bool
  _time_initialized : Bool
  _gmt_offset : Int
  _daylight_offset : Int
  _ntp_server_1 : String
  _ntp_server_2 : String
  _ntp_server_3 : String
  reconnect_timer : Nat
  attempt_count : Nat
  time_initialization_timer : Nat
  deriving DecidableEq, Repr

/-- The global `WiFiMgr WiFiManager;`: static storage is zero-initialised, the
constructor clears `_time_management` and `_time_initialized`, and the static
locals start at their initialisers (1000, 1, 1000). -/
def WiFiManager : WiFiMgr :=
  { _running := false
    _ap_mode := false
    _ssid := ""
    _password := ""
    _state := WIFIMGR_INITIAL
    _time_management := false
    _time_initialized := false
    _gmt_offset := 0
    _daylight_offset := 0
    _ntp_server_1 := ""
    _ntp_server_2 := ""
    _ntp_server_3 := ""
    reconnect_timer := 1000
    attempt_count := 1
    time_initialization_timer := 1000 }

namespace WiFiMgr

/-- The member function `WiFiMgr::Connect()`. -/
def Connect (s : WiFiMgr) : WiFiMgr × List Call :=
  if s._ap_mode then
    let ap_pass : Option String := if s._password.length > 0 then some s._password else none
    ({ s with _state := WIFIMGR_SOFT_AP },
      [Call.WiFi_disconnect, Call.WiFi_softAP s._ssid ap_pass,
        Call.log LogLine.softAP_initialized])
  else
    ({ s with _state := WIFIMGR_CONNECTING },
      [Call.WiFi_disconnect, Call.log LogLine.client_connection_started,
        Call.WiFi_begin s._ssid s._password])

/-- The member function `WiFiMgr::begin(ap_mode, ssid, password)`. -/
def begin (s : WiFiMgr) (ap_mode : Bool) (ssid password : String) : WiFiMgr × List Call :=
  let s1 : WiFiMgr :=
    { s with _running := true, _ap_mode := ap_mode, _ssid := ssid, _password := password,
             _state := WIFIMGR_INITIAL }
  let r := Connect s1
  if !r.1._ap_mode then (r.1, r.2 ++ [Call.xTaskCreate]) else (r.1, r.2)

/-- The member function `WiFiMgr::EnableTimeMgr`. -/
def EnableTimeMgr (s : WiFiMgr) (gmt_offset daylight_offset : Int)
    (ntp_server_1 ntp_server_2 ntp_server_3 : String) : WiFiMgr × List Call :=
  ({ s with _time_management := true, _gmt_offset := gmt_offset,
            _daylight_offset := daylight_offset, _ntp_server_1 := ntp_server_1,
            _ntp_server_2 := ntp_server_2, _ntp_server_3 := ntp_server_3 }, [])

/-- The member function `WiFiMgr::Disconnect()`. -/
def Disconnect (s : WiFiMgr) : WiFiMgr × List Call :=
  ({ s with _running := false, _state := WIFIMGR_DISCONNECTED_REQUESTED },
    [Call.WiFi_disconnect, Call.log LogLine.disconnected_as_requested])

/-- The member function `WiFiMgr::IsConnected()`; `isConnected` is the answer of
`WiFi.isConnected()`. -/
def IsConnected (s : WiFiMgr) (isConnected : Bool) : Bool :=
  isConnected && s._state == WIFIMGR_CONNECTED

/-- The inline member function `WiFiMgr::IsTimeAvailable()`. -/
def IsTimeAvailable (s : WiFiMgr) : Bool := s._time_initialized

/-- The member function `WiFiMgr::GetTimeFormat(format)`: the returned string
and the calls made. -/
def GetTimeFormat (s : WiFiMgr) (format : String) (clock : Clock) : String × List Call :=
  if !s._time_initialized then ("NN:NN:NN", [])
  else
    match clock.getLocalTime with
    | none => ("NN:NN:NN", [Call.getLocalTime, Call.log LogLine.failed_to_obtain_time])
    | some timeinfo =>
      let r := clock.strftime format timeinfo
      if r.1 = 0 then
        ("NN:NN:NN", [Call.getLocalTime, Call.log LogLine.failed_to_format_time])
      else (r.2, [Call.getLocalTime])

/-- The member function `WiFiMgr::GetTimeInfo(time_info)`: the returned flag, the
structure written through `time_info` on success, and the calls made. -/
def GetTimeInfo (s : WiFiMgr) (clock : Clock) : Bool × Option tm × List Call :=
  if !s._time_initialized then (false, none, [])
  else
    match clock.getLocalTime with
    | none => (false, none, [Call.getLocalTime, Call.log LogLine.failed_to_obtain_time])
    | some timeinfo => (true, some timeinfo, [Call.getLocalTime])

/-- The member function `WiFiMgr::ReconnectAttempt(diff)`; `isConnected` is the
answer of `WiFi.isConnected()`. -/
def ReconnectAttempt (s : WiFiMgr) (diff : Nat) (isConnected : Bool) : WiFiMgr × List Call :=
  if !s._running || isConnected then
    let r1 : WiFiMgr × List Call :=
      if s._state = WIFIMGR_CONNECTING then
        ({ s with _state := WIFIMGR_CONNECTED },
          [Call.log (LogLine.connected_at_attempt s.attempt_count)])
      else (s, [])
    ({ r1.1 with reconnect_timer := 1000, attempt_count := 1 }, r1.2)
  else
    let r1 : WiFiMgr × List Call :=
      if s._state = WIFIMGR_CONNECTED then
        ({ s with _state := WIFIMGR_DISCONNECTED_LOSS },
          [Call.log LogLine.connection_loss, Call.log LogLine.internal_status])
      else (s, [])
    if r1.1.reconnect_timer ≤ diff then
      let r2 : WiFiMgr × List Call :=
        if r1.1._state = WIFIMGR_DISCONNECTED_LOSS ∨ r1.1._state = WIFIMGR_INITIAL then
          Connect r1.1
        else (r1.1, [])
      let l2 : List Call := [Call.log (LogLine.attempt_number r2.1.attempt_count)]
      let r3 : WiFiMgr × List Call :=
        if r2.1.attempt_count % 10 = 0 then
          ((Connect r2.1).1,
            Call.log (LogLine.cant_connect_after r2.1.attempt_count) :: (Connect r2.1).2)
        else (r2.1, [])
      ({ r3.1 with attempt_count := u32_incr r3.1.attempt_count, reconnect_timer := 1000 },
        r1.2 ++ r2.2 ++ l2 ++ r3.2)
    else
      ({ r1.1 with reconnect_timer := u32_sub r1.1.reconnect_timer diff }, r1.2)

/-- The member function `WiFiMgr::TimeCheck(diff)`; `isConnected` is the answer of
`WiFi.isConnected()`, `clock` that of the clock service. -/
def TimeCheck (s : WiFiMgr) (diff : Nat) (isConnected : Bool) (clock : Clock) :
    WiFiMgr × List Call :=
  if s._time_initialized || !s._time_management || !s.IsConnected isConnected then (s, [])
  else if s.time_initialization_timer ≤ diff then
    let server2 : Option String :=
      if s._ntp_server_2.length > 0 then some s._ntp_server_2 else none
    let server3 : Option String :=
      if s._ntp_server_3.length > 0 then some s._ntp_server_3 else none
    let c : Call := Call.configTime s._gmt_offset s._daylight_offset s._ntp_server_1 server2 server3
    let r1 : WiFiMgr × List Call :=
      match clock.getLocalTime with
      | none => (s, [Call.log LogLine.failed_to_obtain_time])
      | some timeinfo =>
        let r := clock.strftime "%A, %B %d %Y %H:%M:%S" timeinfo
        ({ s with _time_initialized := true },
          if r.1 ≠ 0 then [Call.log (LogLine.time_initialized_at r.2)] else [])
    ({ r1.1 with time_initialization_timer := 1000 }, c :: Call.getLocalTime :: r1.2)
  else
    ({ s with time_initialization_timer := u32_sub s.time_initialization_timer diff }, [])

/-- One cycle of the `while (_running)` loop of `WiFiMgr::Run()`:
`ReconnectAttempt(diff)` then `TimeCheck(diff)`.  The two calls query the link
driver separately. -/
def Run_cycle (s : WiFiMgr) (diff : Nat) (isConnected1 isConnected2 : Bool) (clock : Clock) :
    WiFiMgr × List Call :=
  let r1 := s.ReconnectAttempt diff isConnected1
  let r2 := r1.1.TimeCheck diff isConnected2 clock
  (r2.1, r1.2 ++ r2.2)

/-- The member function `WiFiMgr::Run()`, over the list of what each cycle
observes: the elapsed time `diff` computed from `millis()`, the two answers of
the link driver and the answer of the clock service.  The loop is left when
`_running` is false at the top of a cycle. -/
def Run (s : WiFiMgr) : List (Nat × Bool × Bool × Clock) → WiFiMgr × List Call
  | [] => (s, [])
  | i :: rest =>
    if s._running then
      let r := s.Run_cycle i.1 i.2.1 i.2.2.1 i.2.2.2
      let r2 := Run r.1 rest
      (r2.1, r.2 ++ r2.2)
    else (s, [])

/-- A sequence of connection ticks `ReconnectAttempt(diff)`, each with the answer
of `WiFi.isConnected()` on that tick; the calls of all ticks in order. -/
def ticks (s : WiFiMgr) : List (Nat × Bool) → WiFiMgr × List Call
  | [] => (s, [])
  | i :: rest =>
    let r := s.ReconnectAttempt i.1 i.2
    let r2 := ticks r.1 rest
    (r2.1, r.2 ++ r2.2)

end WiFiMgr

/-- An operation on the supervisor, with the answers of the external services
during it. -/
inductive Op where
  | begin (ap_mode : Bool) (ssid password : String)
  | EnableTimeMgr (gmt_offset daylight_offset : Int)
      (ntp_server_1 ntp_server_2 ntp_server_3 : String)
  | Disconnect
  | IsConnected (isConnected : Bool)
  | IsTimeAvailable
  | GetTimeFormat (format : String) (clock : Clock)
  | GetTimeInfo (clock : Clock)
  | ReconnectAttempt (diff : Nat) (isConnected : Bool)
  | TimeCheck (diff : Nat) (isConnected : Bool) (clock : Clock)

/-- The record after one operation; the queries leave it as it is. -/
def Op.apply (s : WiFiMgr) : Op → WiFiMgr
  | Op.begin ap_mode ssid password => (s.begin ap_mode ssid password).1
  | Op.EnableTimeMgr g d s1 s2 s3 => (s.EnableTimeMgr g d s1 s2 s3).1
  | Op.Disconnect => s.Disconnect.1
  | Op.IsConnected _ => s
  | Op.IsTimeAvailable => s
  | Op.GetTimeFormat _ _ => s
  | Op.GetTimeInfo _ => s
  | Op.ReconnectAttempt diff isConnected => (s.ReconnectAttempt diff isConnected).1
  | Op.TimeCheck diff isConnected clock => (s.TimeCheck diff isConnected clock).1

/-- The record after a sequence of operations. -/
def runOps (s : WiFiMgr) (ops : List Op) : WiFiMgr := ops.foldl Op.apply s

/-- Whether a call is the log line of the escalation branch of
`ReconnectAttempt` ("Can't connect after %u attempts, retrying..."). -/
def Call.isEscalation : Call → Bool
  | Call.log (LogLine.cant_connect_after _) => true
  | _ => false

/-- The number of forced-reconnect escalations in a list of calls. -/
def escalations (cs : List Call) : Nat := cs.countP Call.isEscalation

/-- Whether a call asks the link driver to start an association or an access
point (`WiFi.begin`, `WiFi.softAP`), which is what `Connect()` does once. -/
def Call.isConnectRequest : Call → Bool
  | Call.WiFi_begin _ _ => true
  | Call.WiFi_softAP _ _ => true
  | _ => false

/-- The number of connect requests in a list of calls. -/
def connectRequests (cs : List Call) : Nat := cs.countP Call.isConnectRequest

/-- A clock service whose query succeeds with the given time. -/
def Clock.ok (t : tm) : Clock :=
  { getLocalTime := some t
    strftime := fun _ _ => (8, "12:00:00") }

/-- A clock service whose query fails. -/
def Clock.failing : Clock :=
  { getLocalTime := none
    strftime := fun _ _ => (0, "") }

/-- Midnight of 1 January 2021, a Friday. -/
def tm.sample : tm :=
  { tm_sec := 0, tm_min := 0, tm_hour := 0, tm_mday := 1, tm_mon := 0, tm_year := 121,
    tm_wday := 5, tm_yday := 0, tm_isdst := 0 }

/-- The record after `WiFiManager.begin(false, "net", "secret")`. -/
def station0 : WiFiMgr := (WiFiManager.begin false "net" "secret").1

/-- A record whose attempt counter holds the largest `uint32_t`, otherwise as
after `begin` in station mode. -/
def stationMaxAttempt : WiFiMgr := { station0 with attempt_count := 4294967295 }

/-- The record after `begin` in station mode and nine fired retries, when the
retry timer has counted down to 500: attempt 10, state CONNECTING. -/
def station10 : WiFiMgr := { station0 with attempt_count := 10, reconnect_timer := 500 }

/-- The record after `begin` in station mode, connected, with time management
enabled and the time obtained. -/
def stationTimed : WiFiMgr :=
  { station0 with _state := WIFIMGR_CONNECTED, _time_management := true,
                  _time_initialized := true, _ntp_server_1 := "pool.ntp.org" }

/-- The record after `WiFiManager.EnableTimeMgr(0, 0)` (default servers) and
`WiFiManager.begin(false, "net", "secret")`. -/
def stationTimeEnabled : WiFiMgr :=
  ((WiFiManager.EnableTimeMgr 0 0 "pool.ntp.org" "" "").1.begin false "net" "secret").1

/-- A record in access-point mode with an empty password, in state
DISCONNECTED_LOSS. -/
def openAp : WiFiMgr :=
  { WiFiManager with _running := true, _ap_mode := true, _ssid := "esp",
                     _state := WIFIMGR_DISCONNECTED_LOSS }

/-- The record of a station that is connected: as after `begin` in station mode
and a tick on which the link was connected. -/
def stationConnected : WiFiMgr := (station0.ReconnectAttempt 500 true).1

/-- The record of a station in DISCONNECTED_LOSS with attempt 10 and a full
retry timer. -/
def stationLost10 : WiFiMgr :=
  { station0 with _state := WIFIMGR_DISCONNECTED_LOSS, attempt_count := 10 }

/-- The `configTime` call of `TimeCheck`, from the configured offsets and server
names; an empty second or third server name is passed as a null pointer. -/
def WiFiMgr.configTimeCall (s : WiFiMgr) : Call :=
  Call.configTime s._gmt_offset s._daylight_offset s._ntp_server_1
    (if s._ntp_server_2.length > 0 then some s._ntp_server_2 else none)
    (if s._ntp_server_3.length > 0 then some s._ntp_server_3 else none)

/-- The record of a connected station with time management enabled and the
time not yet obtained. -/
def stationSyncing : WiFiMgr := (stationTimeEnabled.ReconnectAttempt 500 true).1

/-- The record of a station in DISCONNECTED_LOSS with attempt 3, whose retry
timer has counted down to 500. -/
def stationLost : WiFiMgr :=
  { station0 with _state := WIFIMGR_DISCONNECTED_LOSS, attempt_count := 3,
                  reconnect_timer := 500 }

/-! ## Theorems -/

/-! ### Connection tick while the link is connected -/

/-- C1: a connection tick with any elapsed value, run while the link driver
reports connected and the state is CONNECTING, ends in CONNECTED with attempt 1
and retry timer 1000; in particular so does the first tick after `begin` in
station mode when the link is connected on it. -/
theorem ReconnectAttempt_connecting_link_up (s : WiFiMgr) (diff : Nat) :
    (s._state = WIFIMGR_CONNECTING →
      (s.ReconnectAttempt diff true).1._state = WIFIMGR_CONNECTED ∧
      (s.ReconnectAttempt diff true).1.attempt_count = 1 ∧
      (s.ReconnectAttempt diff true).1.reconnect_timer = 1000) ∧
    (∀ ssid password : String,
      ((s.begin false ssid password).1.ReconnectAttempt diff true).1._state
          = WIFIMGR_CONNECTED ∧
      ((s.begin false ssid password).1.ReconnectAttempt diff true).1.attempt_count = 1 ∧
      ((s.begin false ssid password).1.ReconnectAttempt diff true).1.reconnect_timer
          = 1000) := by
  constructor
  · intro h
    simp [WiFiMgr.ReconnectAttempt, h]
  · intro ssid password
    simp [WiFiMgr.ReconnectAttempt, WiFiMgr.begin, WiFiMgr.Connect]

/-- The first tick after `WiFiManager.begin(false, "net", "secret")`, with the
link connected and 500 ms elapsed. -/
theorem ReconnectAttempt_connecting_link_up_witness :
    station0._state = WIFIMGR_CONNECTING ∧
    (station0.ReconnectAttempt 500 true).1._state = WIFIMGR_CONNECTED ∧
    (station0.ReconnectAttempt 500 true).1.attempt_count = 1 ∧
    (station0.ReconnectAttempt 500 true).1.reconnect_timer = 1000 :=
  ⟨by decide, (ReconnectAttempt_connecting_link_up station0 500).1 (by decide)⟩

/-! ### Connection tick while the link is down -/

/-- `Connect()` writes `_state` only. -/
theorem Connect_fields (s : WiFiMgr) :
    s.Connect.1._running = s._running ∧ s.Connect.1._ap_mode = s._ap_mode ∧
    s.Connect.1._ssid = s._ssid ∧ s.Connect.1._password = s._password ∧
    s.Connect.1._time_management = s._time_management ∧
    s.Connect.1._time_initialized = s._time_initialized ∧
    s.Connect.1.reconnect_timer = s.reconnect_timer ∧
    s.Connect.1.attempt_count = s.attempt_count ∧
    s.Connect.1.time_initialization_timer = s.time_initialization_timer := by
  unfold WiFiMgr.Connect
  split <;> simp

/-- The state `Connect()` leaves: SOFT_AP in access-point mode, CONNECTING
otherwise. -/
theorem Connect_state (s : WiFiMgr) :
    s.Connect.1._state = if s._ap_mode then WIFIMGR_SOFT_AP else WIFIMGR_CONNECTING := by
  unfold WiFiMgr.Connect
  split <;> simp

/-- The counters after a tick with the link down on which the retry timer is
not due. -/
theorem ReconnectAttempt_down_early (s : WiFiMgr) (d : Nat) (hrun : s._running = true)
    (h : d < s.reconnect_timer) :
    (s.ReconnectAttempt d false).1.reconnect_timer = u32_sub s.reconnect_timer d ∧
    (s.ReconnectAttempt d false).1.attempt_count = s.attempt_count := by
  have h2 : ¬ s.reconnect_timer ≤ d := by omega
  unfold WiFiMgr.ReconnectAttempt
  by_cases hc : s._state = WIFIMGR_CONNECTED <;> simp [hrun, hc, h2]

/-- The counters after a tick with the link down on which the retry timer is
due. -/
theorem ReconnectAttempt_down_due (s : WiFiMgr) (d : Nat) (hrun : s._running = true)
    (h : s.reconnect_timer ≤ d) :
    (s.ReconnectAttempt d false).1.reconnect_timer = 1000 ∧
    (s.ReconnectAttempt d false).1.attempt_count = u32_incr s.attempt_count := by
  unfold WiFiMgr.ReconnectAttempt
  by_cases hc : s._state = WIFIMGR_CONNECTED
  · by_cases hm : s.attempt_count % 10 = 0 <;>
      simp [hrun, hc, h, hm, Connect_fields]
  · by_cases hl : s._state = WIFIMGR_DISCONNECTED_LOSS ∨ s._state = WIFIMGR_INITIAL <;>
      by_cases hm : s.attempt_count % 10 = 0 <;>
      simp [hrun, hc, h, hm, hl, Connect_fields]

/-- The `++` of a `uint32_t` below the largest value adds exactly one. -/
theorem u32_incr_of_lt (a : Nat) (h : a < 4294967295) : u32_incr a = a + 1 := by
  unfold u32_incr UINT32_MOD
  omega

/-- The `-=` of two `uint32_t` is the exact difference when the left one is the
larger. -/
theorem u32_sub_of_lt (a b : Nat) (ha : a < UINT32_MOD) (h : b < a) : u32_sub a b = a - b := by
  unfold u32_sub
  unfold UINT32_MOD at *
  omega

/-- C2 (counterexample): on a due tick with the link down and the attempt counter
at the largest `uint32_t`, 4294967295, the counter after the tick is 0, not
4294967296: it has not increased by one. -/
theorem ReconnectAttempt_attempt_wraps :
    stationMaxAttempt._running = true ∧
    stationMaxAttempt.reconnect_timer ≤ 1000 ∧
    stationMaxAttempt.attempt_count = 4294967295 ∧
    (stationMaxAttempt.ReconnectAttempt 1000 false).1.attempt_count = 0 ∧
    ¬ ((stationMaxAttempt.ReconnectAttempt 1000 false).1.attempt_count
        = stationMaxAttempt.attempt_count + 1) := by
  decide

/-- C2 (amended): on a connection tick run while running with the link down,
with elapsed value `d` and a retry timer `r` that is a `uint32_t`: if the timer
is not due (`r > d`) the timer after the tick is `r - d`, no larger than `r`,
and attempt is unchanged; if it is due (`r <= d`) the timer after the tick is
1000 and attempt has been incremented modulo `2^32`, which is an increase by
exactly 1 unless attempt was 4294967295. -/
theorem ReconnectAttempt_link_down_counters (s : WiFiMgr) (d : Nat)
    (hrun : s._running = true) (hr : s.reconnect_timer < UINT32_MOD) :
    (d < s.reconnect_timer →
      (s.ReconnectAttempt d false).1.reconnect_timer = s.reconnect_timer - d ∧
      (s.ReconnectAttempt d false).1.reconnect_timer ≤ s.reconnect_timer ∧
      (s.ReconnectAttempt d false).1.attempt_count = s.attempt_count) ∧
    (s.reconnect_timer ≤ d →
      (s.ReconnectAttempt d false).1.reconnect_timer = 1000 ∧
      (s.ReconnectAttempt d false).1.attempt_count = (s.attempt_count + 1) % 4294967296 ∧
      (s.attempt_count < 4294967295 →
        (s.ReconnectAttempt d false).1.attempt_count = s.attempt_count + 1)) := by
  constructor
  · intro h
    obtain ⟨h1, h2⟩ := ReconnectAttempt_down_early s d hrun h
    rw [u32_sub_of_lt _ _ hr h] at h1
    exact ⟨h1, by omega, h2⟩
  · intro h
    obtain ⟨h1, h2⟩ := ReconnectAttempt_down_due s d hrun h
    refine ⟨h1, h2, ?_⟩
    intro ha
    rw [h2, u32_incr_of_lt _ ha]

/-- Two ticks of 500 ms after `WiFiManager.begin(false, "net", "secret")` with the
link down: the first leaves the timer at 500 and attempt at 1, the second
reloads 1000 and makes attempt 2. -/
theorem ReconnectAttempt_link_down_counters_witness :
    (station0._running = true ∧ station0.reconnect_timer < UINT32_MOD) ∧
    (500 < station0.reconnect_timer ∧
      (station0.ReconnectAttempt 500 false).1.reconnect_timer = station0.reconnect_timer - 500 ∧
      (station0.ReconnectAttempt 500 false).1.reconnect_timer ≤ station0.reconnect_timer ∧
      (station0.ReconnectAttempt 500 false).1.attempt_count = station0.attempt_count) ∧
    (station0.reconnect_timer ≤ 1000 ∧
      (station0.ReconnectAttempt 1000 false).1.reconnect_timer = 1000 ∧
      (station0.ReconnectAttempt 1000 false).1.attempt_count = station0.attempt_count + 1) :=
  ⟨⟨by decide, by decide⟩,
   ⟨by decide,
    (ReconnectAttempt_link_down_counters station0 500 (by decide) (by decide)).1 (by decide)⟩,
   ⟨by decide,
    ((ReconnectAttempt_link_down_counters station0 1000 (by decide) (by decide)).2
      (by decide)).1,
    ((ReconnectAttempt_link_down_counters station0 1000 (by decide) (by decide)).2
      (by decide)).2.2 (by decide)⟩⟩

/-! ### The attempt counter -/

/-- A connection tick never writes `_running`, `_ap_mode` or the time flags. -/
theorem ReconnectAttempt_fields (s : WiFiMgr) (d : Nat) (c : Bool) :
    (s.ReconnectAttempt d c).1._running = s._running ∧
    (s.ReconnectAttempt d c).1._ap_mode = s._ap_mode ∧
    (s.ReconnectAttempt d c).1._time_management = s._time_management ∧
    (s.ReconnectAttempt d c).1._time_initialized = s._time_initialized ∧
    (s.ReconnectAttempt d c).1.time_initialization_timer = s.time_initialization_timer := by
  unfold WiFiMgr.ReconnectAttempt
  by_cases h0 : (!s._running || c) = true
  · rw [if_pos h0]
    by_cases hc : s._state = WIFIMGR_CONNECTING <;> simp [hc]
  · rw [if_neg h0]
    by_cases hc : s._state = WIFIMGR_CONNECTED
    · by_cases hd : s.reconnect_timer ≤ d <;> by_cases hm : s.attempt_count % 10 = 0 <;>
        simp [hc, hd, hm, Connect_fields]
    · by_cases hd : s.reconnect_timer ≤ d <;>
        by_cases hl : s._state = WIFIMGR_DISCONNECTED_LOSS ∨ s._state = WIFIMGR_INITIAL <;>
        by_cases hm : s.attempt_count % 10 = 0 <;>
        simp [hc, hd, hm, hl, Connect_fields]

/-- A connection tick sets the attempt counter to 1, leaves it, or increments
it. -/
theorem ReconnectAttempt_attempt_cases (s : WiFiMgr) (d : Nat) (c : Bool) :
    (s.ReconnectAttempt d c).1.attempt_count = 1 ∨
    (s.ReconnectAttempt d c).1.attempt_count = s.attempt_count ∨
    (s.ReconnectAttempt d c).1.attempt_count = u32_incr s.attempt_count := by
  by_cases h0 : (!s._running || c) = true
  · left
    unfold WiFiMgr.ReconnectAttempt
    rw [if_pos h0]
  · have hrun : s._running = true := by
      cases hr : s._running <;> simp [hr] at h0 ⊢
    have hc : c = false := by
      cases c <;> simp at h0 ⊢
    subst hc
    by_cases hd : s.reconnect_timer ≤ d
    · exact Or.inr (Or.inr (ReconnectAttempt_down_due s d hrun hd).2)
    · exact Or.inr (Or.inl (ReconnectAttempt_down_early s d hrun (by omega)).2)

/-- Every operation sets the attempt counter to 1, leaves it, or increments
it. -/
theorem Op_apply_attempt_cases (s : WiFiMgr) (op : Op) :
    (op.apply s).attempt_count = 1 ∨
    (op.apply s).attempt_count = s.attempt_count ∨
    (op.apply s).attempt_count = u32_incr s.attempt_count := by
  cases op with
  | begin ap_mode ssid password =>
    right; left
    simp only [Op.apply, WiFiMgr.begin]
    split <;> simp [Connect_fields]
  | EnableTimeMgr g d s1 s2 s3 => right; left; rfl
  | Disconnect => right; left; rfl
  | IsConnected c => right; left; rfl
  | IsTimeAvailable => right; left; rfl
  | GetTimeFormat f c => right; left; rfl
  | GetTimeInfo c => right; left; rfl
  | ReconnectAttempt d c => exact ReconnectAttempt_attempt_cases s d c
  | TimeCheck d c clock =>
    right; left
    simp only [Op.apply, WiFiMgr.TimeCheck]
    split
    · rfl
    · split
      · cases clock.getLocalTime <;> rfl
      · rfl

/-- After `n` operations from attempt 1 the counter lies between 1 and `n + 1`,
as long as `n + 1` is a `uint32_t`. -/
theorem runOps_attempt_bounds (ops : List Op) (s : WiFiMgr) (k : Nat)
    (h1 : 1 ≤ s.attempt_count) (hk : s.attempt_count ≤ k + 1)
    (hlen : k + ops.length < 4294967295) :
    1 ≤ (runOps s ops).attempt_count ∧ (runOps s ops).attempt_count ≤ k + ops.length + 1 := by
  induction ops generalizing s k with
  | nil => simpa [runOps] using And.intro h1 hk
  | cons op rest ih =>
    have hlen2 : k + 1 + rest.length < 4294967295 := by
      simp only [List.length_cons] at hlen
      omega
    have hstep : 1 ≤ (op.apply s).attempt_count ∧ (op.apply s).attempt_count ≤ k + 1 + 1 := by
      rcases Op_apply_attempt_cases s op with h | h | h
      · omega
      · omega
      · rw [h, u32_incr_of_lt _ (by simp only [List.length_cons] at hlen; omega)]
        omega
    have := ih (op.apply s) (k + 1) hstep.1 hstep.2 hlen2
    simp only [runOps, List.foldl_cons, List.length_cons] at this ⊢
    constructor
    · exact this.1
    · have h2 := this.2
      omega

/-- Repeating the due tick `ReconnectAttempt(1000)` with the link down `n` times
adds `n` to the attempt counter modulo `2^32`. -/
theorem runOps_due_ticks_attempt (n : Nat) (s : WiFiMgr) (hrun : s._running = true)
    (ht : s.reconnect_timer = 1000) (ha : s.attempt_count < 4294967296) :
    (runOps s (List.replicate n (Op.ReconnectAttempt 1000 false))).attempt_count
      = (s.attempt_count + n) % 4294967296 := by
  induction n generalizing s with
  | zero =>
    simp only [runOps, List.replicate_zero, List.foldl_nil]
    omega
  | succ n ih =>
    obtain ⟨h1, h2⟩ := ReconnectAttempt_down_due s 1000 hrun (by omega)
    have hrun2 : (s.ReconnectAttempt 1000 false).1._running = true := by
      rw [(ReconnectAttempt_fields s 1000 false).1, hrun]
    have e : runOps s (List.replicate (n + 1) (Op.ReconnectAttempt 1000 false))
        = runOps (s.ReconnectAttempt 1000 false).1
            (List.replicate n (Op.ReconnectAttempt 1000 false)) := by
      simp [runOps, List.replicate_succ, Op.apply]
    have ha2 : (s.ReconnectAttempt 1000 false).1.attempt_count < 4294967296 := by
      rw [h2]
      unfold u32_incr UINT32_MOD
      omega
    rw [e, ih (s.ReconnectAttempt 1000 false).1 hrun2 h1 ha2, h2]
    unfold u32_incr UINT32_MOD
    omega

/-- C3 (counterexample): from the initial counters (timer 1000, attempt 1),
`begin` in station mode followed by 4294967295 connection ticks of 1000 ms with
the link down leaves the 32-bit attempt counter at 0. -/
theorem attempt_count_reaches_zero :
    WiFiManager.reconnect_timer = 1000 ∧ WiFiManager.attempt_count = 1 ∧
    (runOps WiFiManager
      (Op.begin false "net" "secret" ::
        List.replicate 4294967295 (Op.ReconnectAttempt 1000 false))).attempt_count = 0 ∧
    ¬ (1 ≤ (runOps WiFiManager
      (Op.begin false "net" "secret" ::
        List.replicate 4294967295 (Op.ReconnectAttempt 1000 false))).attempt_count) := by
  have e : runOps WiFiManager
      (Op.begin false "net" "secret" ::
        List.replicate 4294967295 (Op.ReconnectAttempt 1000 false))
      = runOps station0 (List.replicate 4294967295 (Op.ReconnectAttempt 1000 false)) := by
    have e0 : Op.apply WiFiManager (Op.begin false "net" "secret") = station0 := rfl
    unfold runOps
    rw [List.foldl_cons, e0]
  have h := runOps_due_ticks_attempt 4294967295 station0 (by decide) (by decide) (by decide)
  have ha : station0.attempt_count = 1 := by decide
  rw [ha] at h
  rw [e, h]
  exact ⟨by decide, by decide, by decide, by decide⟩

/-- C3 (amended): in every state reached from attempt 1 by fewer than 4294967295
operations (`begin`, `EnableTimeMgr`, `Disconnect`, the queries, connection
ticks and time ticks with arbitrary elapsed values and link truth), the attempt
counter is at least 1; no operation writes 0 to it, it only reaches 0 by the
wrap of the increment. -/
theorem attempt_count_ge_one (s : WiFiMgr) (ops : List Op) (h0 : s.attempt_count = 1)
    (hlen : ops.length < 4294967295) :
    1 ≤ (runOps s ops).attempt_count ∧ (runOps s ops).attempt_count ≠ 0 := by
  have h := runOps_attempt_bounds ops s 0 (by omega) (by omega) (by omega)
  exact ⟨h.1, by omega⟩

/-- The counter after `begin`, three due ticks with the link down, and
`Disconnect`, from the initial counters. -/
theorem attempt_count_ge_one_witness :
    (WiFiManager.attempt_count = 1 ∧
      [Op.begin false "net" "secret", Op.ReconnectAttempt 1000 false,
        Op.ReconnectAttempt 1000 false, Op.ReconnectAttempt 1000 false,
        Op.Disconnect].length < 4294967295) ∧
    1 ≤ (runOps WiFiManager
      [Op.begin false "net" "secret", Op.ReconnectAttempt 1000 false,
        Op.ReconnectAttempt 1000 false, Op.ReconnectAttempt 1000 false,
        Op.Disconnect]).attempt_count ∧
    (runOps WiFiManager
      [Op.begin false "net" "secret", Op.ReconnectAttempt 1000 false,
        Op.ReconnectAttempt 1000 false, Op.ReconnectAttempt 1000 false,
        Op.Disconnect]).attempt_count ≠ 0 :=
  ⟨⟨by decide, by decide⟩, attempt_count_ge_one WiFiManager _ (by decide) (by decide)⟩

/-! ### The calls of a due tick -/

/-- The calls of `Connect()` depend on the mode and the credentials only. -/
theorem Connect_calls_congr (s t : WiFiMgr) (h1 : t._ap_mode = s._ap_mode)
    (h2 : t._ssid = s._ssid) (h3 : t._password = s._password) : t.Connect.2 = s.Connect.2 := by
  unfold WiFiMgr.Connect
  rw [h1, h2, h3]
  split <;> rfl

/-- The calls of `Connect()`, from the mode and the credentials. -/
theorem Connect_calls (s : WiFiMgr) :
    s.Connect.2 =
      if s._ap_mode then
        [Call.WiFi_disconnect,
          Call.WiFi_softAP s._ssid (if s._password.length > 0 then some s._password else none),
          Call.log LogLine.softAP_initialized]
      else
        [Call.WiFi_disconnect, Call.log LogLine.client_connection_started,
          Call.WiFi_begin s._ssid s._password] := by
  unfold WiFiMgr.Connect
  split <;> rfl

/-- `Connect()` makes exactly one connect request and no escalation log line. -/
theorem Connect_calls_count (s : WiFiMgr) :
    connectRequests s.Connect.2 = 1 ∧ escalations s.Connect.2 = 0 := by
  unfold WiFiMgr.Connect
  split <;> exact ⟨by rfl, by rfl⟩

/-- The calls of a tick with the link down on which the retry timer is due: the
loss log lines when the state was CONNECTED, a `Connect()` when the state is
then DISCONNECTED_LOSS or INITIAL, the attempt log line, and the escalation log
line with a `Connect()` when the attempt counter is a multiple of 10. -/
theorem ReconnectAttempt_down_due_calls (s : WiFiMgr) (d : Nat) (hrun : s._running = true)
    (h : s.reconnect_timer ≤ d) :
    (s.ReconnectAttempt d false).2 =
      (if s._state = WIFIMGR_CONNECTED then
        [Call.log LogLine.connection_loss, Call.log LogLine.internal_status] else []) ++
      (if s._state = WIFIMGR_CONNECTED ∨ s._state = WIFIMGR_DISCONNECTED_LOSS ∨
          s._state = WIFIMGR_INITIAL then s.Connect.2 else []) ++
      [Call.log (LogLine.attempt_number s.attempt_count)] ++
      (if s.attempt_count % 10 = 0 then
        Call.log (LogLine.cant_connect_after s.attempt_count) :: s.Connect.2 else []) := by
  unfold WiFiMgr.ReconnectAttempt
  by_cases hc : s._state = WIFIMGR_CONNECTED
  · by_cases hm : s.attempt_count % 10 = 0 <;>
      simp [hrun, hc, h, hm, Connect_fields, Connect_calls]
  · by_cases hl : s._state = WIFIMGR_DISCONNECTED_LOSS ∨ s._state = WIFIMGR_INITIAL
    · by_cases hm : s.attempt_count % 10 = 0 <;>
        simp [hrun, hc, h, hm, hl, Connect_fields, Connect_calls]
    · have hl2 : ¬ (s._state = WIFIMGR_CONNECTED ∨ s._state = WIFIMGR_DISCONNECTED_LOSS ∨
          s._state = WIFIMGR_INITIAL) := by
        intro h3
        rcases h3 with h3 | h3 | h3
        · exact hc h3
        · exact hl (Or.inl h3)
        · exact hl (Or.inr h3)
      by_cases hm : s.attempt_count % 10 = 0 <;>
        simp [hrun, hc, h, hm, hl, hl2, Connect_fields, Connect_calls]

/-- The state after a tick with the link down on which the retry timer is due:
the one `Connect()` leaves when a connect request was made, the prior one
otherwise. -/
theorem ReconnectAttempt_down_due_state (s : WiFiMgr) (d : Nat) (hrun : s._running = true)
    (h : s.reconnect_timer ≤ d) :
    (s.ReconnectAttempt d false).1._state =
      if s.attempt_count % 10 = 0 ∨ s._state = WIFIMGR_CONNECTED ∨
          s._state = WIFIMGR_DISCONNECTED_LOSS ∨ s._state = WIFIMGR_INITIAL
      then s.Connect.1._state else s._state := by
  unfold WiFiMgr.ReconnectAttempt
  by_cases hc : s._state = WIFIMGR_CONNECTED
  · by_cases hm : s.attempt_count % 10 = 0 <;>
      simp [hrun, hc, h, hm, Connect_fields, Connect_state]
  · by_cases hl : s._state = WIFIMGR_DISCONNECTED_LOSS ∨ s._state = WIFIMGR_INITIAL
    · by_cases hm : s.attempt_count % 10 = 0 <;>
        simp [hrun, hc, h, hm, hl, Connect_fields, Connect_state]
    · have hl2 : ¬ (s._state = WIFIMGR_DISCONNECTED_LOSS) := fun h3 => hl (Or.inl h3)
      have hl3 : ¬ (s._state = WIFIMGR_INITIAL) := fun h3 => hl (Or.inr h3)
      by_cases hm : s.attempt_count % 10 = 0 <;>
        simp [hrun, hc, h, hm, hl2, hl3, Connect_fields, Connect_state]

/-- A due tick with the link down logs one escalation when the attempt counter is
a multiple of 10 and none otherwise. -/
theorem ReconnectAttempt_down_due_escalations (s : WiFiMgr) (d : Nat)
    (hrun : s._running = true) (h : s.reconnect_timer ≤ d) :
    escalations (s.ReconnectAttempt d false).2 = if s.attempt_count % 10 = 0 then 1 else 0 := by
  rw [ReconnectAttempt_down_due_calls s d hrun h]
  have hc2 := (Connect_calls_count s).2
  unfold escalations at hc2 ⊢
  split <;> split <;> split <;>
    simp only [List.countP_append, List.countP_cons, List.countP_nil, hc2] <;>
    rfl

/-- C4: on a connection tick run while running with the link down, on which the
retry timer is due and attempt is a multiple of 10 (zero or not), the escalation
log line is
followed by the calls of a `Connect()` (disconnect, then the station or
access-point start with the configured credentials) at the end of the tick,
whatever the logical state is; the tick logs one escalation, makes at least one
connect request, and ends in the state `Connect()` leaves. -/
theorem ReconnectAttempt_escalation (s : WiFiMgr) (d : Nat) (hrun : s._running = true)
    (hdue : s.reconnect_timer ≤ d) (hm : s.attempt_count % 10 = 0) :
    (∃ pre : List Call, (s.ReconnectAttempt d false).2 =
      pre ++ Call.log (LogLine.cant_connect_after s.attempt_count) :: s.Connect.2) ∧
    escalations (s.ReconnectAttempt d false).2 = 1 ∧
    1 ≤ connectRequests (s.ReconnectAttempt d false).2 ∧
    (s.ReconnectAttempt d false).1._state = s.Connect.1._state := by
  have hcalls := ReconnectAttempt_down_due_calls s d hrun hdue
  have hstate := ReconnectAttempt_down_due_state s d hrun hdue
  rw [if_pos hm] at hcalls
  rw [if_pos (Or.inl hm)] at hstate
  obtain ⟨hc1, hc2⟩ := Connect_calls_count s
  refine ⟨⟨_, hcalls⟩, ?_, ?_, hstate⟩
  · rw [ReconnectAttempt_down_due_escalations s d hrun hdue, if_pos hm]
  · rw [hcalls]
    unfold connectRequests at hc1 ⊢
    simp only [List.countP_append, List.countP_cons, hc1]
    omega

/-- The record after `begin` in station mode with attempt 10 and the retry timer
due on a tick of 500 ms: the state is CONNECTING. -/
theorem ReconnectAttempt_escalation_witness :
    (station10._running = true ∧ station10.reconnect_timer ≤ 500 ∧
      station10.attempt_count % 10 = 0 ∧ station10.attempt_count ≠ 0 ∧
      station10._state = WIFIMGR_CONNECTING) ∧
    (∃ pre : List Call, (station10.ReconnectAttempt 500 false).2 =
      pre ++ Call.log (LogLine.cant_connect_after station10.attempt_count) ::
        station10.Connect.2) ∧
    escalations (station10.ReconnectAttempt 500 false).2 = 1 ∧
    1 ≤ connectRequests (station10.ReconnectAttempt 500 false).2 ∧
    (station10.ReconnectAttempt 500 false).1._state = station10.Connect.1._state :=
  ⟨by decide,
   ReconnectAttempt_escalation station10 500 (by decide) (by decide) (by decide)⟩

/-! ### Scenario 1: ten retry periods with the link down -/

/-- Ticks over two lists in a row. -/
theorem ticks_append (s : WiFiMgr) (l1 l2 : List (Nat × Bool)) :
    WiFiMgr.ticks s (l1 ++ l2) =
      ((WiFiMgr.ticks (WiFiMgr.ticks s l1).1 l2).1,
        (WiFiMgr.ticks s l1).2 ++ (WiFiMgr.ticks (WiFiMgr.ticks s l1).1 l2).2) := by
  induction l1 generalizing s with
  | nil => simp [WiFiMgr.ticks]
  | cons i rest ih => simp [WiFiMgr.ticks, ih, List.append_assoc]

/-- A tick with the link down, in station mode and state CONNECTING, on which
the retry timer is not due: only the timer changes and nothing is called. -/
theorem ReconnectAttempt_connecting_early (s : WiFiMgr) (d : Nat) (hrun : s._running = true)
    (hst : s._state = WIFIMGR_CONNECTING) (h : d < s.reconnect_timer) :
    (s.ReconnectAttempt d false).1._state = WIFIMGR_CONNECTING ∧
    (s.ReconnectAttempt d false).2 = [] := by
  have h2 : ¬ s.reconnect_timer ≤ d := by omega
  unfold WiFiMgr.ReconnectAttempt
  simp [hrun, hst, h2]

/-- One retry period in station mode with the link down: `j + 1` ticks of `d`
from a timer of `(j + 1) * d` fire once, on the last tick. -/
theorem ticks_one_period (d : Nat) (hd : 0 < d) (j : Nat) (s : WiFiMgr)
    (hrun : s._running = true) (hap : s._ap_mode = false)
    (hst : s._state = WIFIMGR_CONNECTING) (ht : s.reconnect_timer = (j + 1) * d)
    (hlt : s.reconnect_timer < UINT32_MOD) :
    (WiFiMgr.ticks s (List.replicate (j + 1) (d, false))).1._running = true ∧
    (WiFiMgr.ticks s (List.replicate (j + 1) (d, false))).1._ap_mode = false ∧
    (WiFiMgr.ticks s (List.replicate (j + 1) (d, false))).1._state = WIFIMGR_CONNECTING ∧
    (WiFiMgr.ticks s (List.replicate (j + 1) (d, false))).1.reconnect_timer = 1000 ∧
    (WiFiMgr.ticks s (List.replicate (j + 1) (d, false))).1.attempt_count
      = u32_incr s.attempt_count ∧
    escalations (WiFiMgr.ticks s (List.replicate (j + 1) (d, false))).2
      = if s.attempt_count % 10 = 0 then 1 else 0 := by
  induction j generalizing s with
  | zero =>
    have hdue : s.reconnect_timer ≤ d := by omega
    obtain ⟨h1, h2⟩ := ReconnectAttempt_down_due s d hrun hdue
    have h3 := ReconnectAttempt_down_due_state s d hrun hdue
    have h5 := ReconnectAttempt_fields s d false
    have h6 : s.Connect.1._state = WIFIMGR_CONNECTING := by rw [Connect_state, hap]; rfl
    simp only [List.replicate, WiFiMgr.ticks, List.append_nil]
    refine ⟨by rw [h5.1, hrun], by rw [h5.2.1, hap], ?_, h1, h2, ?_⟩
    · rw [h3, h6, hst]
      simp
    · exact ReconnectAttempt_down_due_escalations s d hrun hdue
  | succ j ih =>
    have hearly : d < s.reconnect_timer := by
      rw [ht]
      nlinarith
    obtain ⟨h1, h2⟩ := ReconnectAttempt_down_early s d hrun hearly
    obtain ⟨h3, h4⟩ := ReconnectAttempt_connecting_early s d hrun hst hearly
    have h5 := ReconnectAttempt_fields s d false
    rw [u32_sub_of_lt _ _ hlt hearly] at h1
    have ht2 : (s.ReconnectAttempt d false).1.reconnect_timer = (j + 1) * d := by
      rw [h1, ht]
      have : (j + 1 + 1) * d = (j + 1) * d + d := by ring
      omega
    have hlt2 : (s.ReconnectAttempt d false).1.reconnect_timer < UINT32_MOD := by omega
    have := ih (s.ReconnectAttempt d false).1 (by rw [h5.1, hrun]) (by rw [h5.2.1, hap]) h3
      ht2 hlt2
    rw [h2] at this
    rw [List.replicate_succ]
    simp only [WiFiMgr.ticks, h4, List.nil_append]
    exact this

/-- With the link down in station mode, `m` retry periods of `k` ticks of `d`
(`k * d = 1000`) from a full timer add `m` to the attempt counter and log one
escalation for each multiple of 10 the counter passes. -/
theorem ticks_periods (d k : Nat) (hd : 0 < d) (hk : 0 < k) (hkd : k * d = 1000) (m : Nat)
    (s : WiFiMgr) (hrun : s._running = true) (hap : s._ap_mode = false)
    (hst : s._state = WIFIMGR_CONNECTING) (ht : s.reconnect_timer = 1000)
    (ha : s.attempt_count + m < 4294967296) :
    (WiFiMgr.ticks s (List.replicate (m * k) (d, false))).1._running = true ∧
    (WiFiMgr.ticks s (List.replicate (m * k) (d, false))).1._ap_mode = false ∧
    (WiFiMgr.ticks s (List.replicate (m * k) (d, false))).1._state = WIFIMGR_CONNECTING ∧
    (WiFiMgr.ticks s (List.replicate (m * k) (d, false))).1.reconnect_timer = 1000 ∧
    (WiFiMgr.ticks s (List.replicate (m * k) (d, false))).1.attempt_count
      = s.attempt_count + m ∧
    escalations (WiFiMgr.ticks s (List.replicate (m * k) (d, false))).2
      = (List.range m).countP (fun i => (s.attempt_count + i) % 10 = 0) := by
  induction m with
  | zero => simp [WiFiMgr.ticks, hrun, hap, hst, ht, escalations]
  | succ m ih =>
    obtain ⟨i1, i2, i3, i4, i5, i6⟩ := ih (by omega)
    obtain ⟨j, hj⟩ : ∃ j, k = j + 1 := ⟨k - 1, by omega⟩
    have e : (m + 1) * k = m * k + (j + 1) := by rw [Nat.succ_mul, hj]
    have p := ticks_one_period d hd j
      (WiFiMgr.ticks s (List.replicate (m * k) (d, false))).1 i1 i2 i3
      (by rw [i4, ← hj, hkd]) (by rw [i4]; unfold UINT32_MOD; omega)
    obtain ⟨p1, p2, p3, p4, p5, p6⟩ := p
    rw [e, List.replicate_add, ticks_append]
    refine ⟨p1, p2, p3, p4, ?_, ?_⟩
    · show (WiFiMgr.ticks (WiFiMgr.ticks s (List.replicate (m * k) (d, false))).1
        (List.replicate (j + 1) (d, false))).1.attempt_count = s.attempt_count + (m + 1)
      rw [p5, i5, u32_incr_of_lt _ (by omega)]
      omega
    · show escalations ((WiFiMgr.ticks s (List.replicate (m * k) (d, false))).2 ++
        (WiFiMgr.ticks (WiFiMgr.ticks s (List.replicate (m * k) (d, false))).1
          (List.replicate (j + 1) (d, false))).2) = _
      unfold escalations at i6 p6 ⊢
      rw [List.countP_append, i6, p6, i5, List.range_succ, List.countP_append]
      simp [List.countP_cons]

/-- The calls of `begin` hold no escalation log line. -/
theorem begin_escalations (s : WiFiMgr) (ap_mode : Bool) (ssid password : String) :
    escalations (s.begin ap_mode ssid password).2 = 0 := by
  have h : ∀ t : WiFiMgr, List.countP Call.isEscalation t.Connect.2 = 0 :=
    fun t => (Connect_calls_count t).2
  unfold WiFiMgr.begin escalations
  simp only
  split
  · rw [List.countP_append, h]
    rfl
  · exact h _

/-- A connection tick never writes the credentials. -/
theorem ReconnectAttempt_credentials (s : WiFiMgr) (d : Nat) (c : Bool) :
    (s.ReconnectAttempt d c).1._ssid = s._ssid ∧
    (s.ReconnectAttempt d c).1._password = s._password := by
  unfold WiFiMgr.ReconnectAttempt
  by_cases h0 : (!s._running || c) = true
  · rw [if_pos h0]
    by_cases hc : s._state = WIFIMGR_CONNECTING <;> simp [hc]
  · rw [if_neg h0]
    by_cases hc : s._state = WIFIMGR_CONNECTED
    · by_cases hd : s.reconnect_timer ≤ d <;> by_cases hm : s.attempt_count % 10 = 0 <;>
        simp [hc, hd, hm, Connect_fields]
    · by_cases hd : s.reconnect_timer ≤ d <;>
        by_cases hl : s._state = WIFIMGR_DISCONNECTED_LOSS ∨ s._state = WIFIMGR_INITIAL <;>
        by_cases hm : s.attempt_count % 10 = 0 <;>
        simp [hc, hd, hm, hl, Connect_fields]

/-- The calls of one retry period in station mode with the link down, from state
CONNECTING: the attempt log line of the firing tick and, when the attempt
counter is a multiple of 10, the escalation log line followed by the calls of
`Connect()`; the credentials are not written. -/
theorem ticks_one_period_calls (d : Nat) (hd : 0 < d) (j : Nat) (s : WiFiMgr)
    (hrun : s._running = true) (hst : s._state = WIFIMGR_CONNECTING)
    (ht : s.reconnect_timer = (j + 1) * d) (hlt : s.reconnect_timer < UINT32_MOD) :
    (WiFiMgr.ticks s (List.replicate (j + 1) (d, false))).1._ssid = s._ssid ∧
    (WiFiMgr.ticks s (List.replicate (j + 1) (d, false))).1._password = s._password ∧
    (WiFiMgr.ticks s (List.replicate (j + 1) (d, false))).2 =
      Call.log (LogLine.attempt_number s.attempt_count) ::
        (if s.attempt_count % 10 = 0 then
          Call.log (LogLine.cant_connect_after s.attempt_count) :: s.Connect.2 else []) := by
  induction j generalizing s with
  | zero =>
    have hdue : s.reconnect_timer ≤ d := by omega
    have h4 := ReconnectAttempt_down_due_calls s d hrun hdue
    have h5 := ReconnectAttempt_credentials s d false
    have n1 : ¬ s._state = WIFIMGR_CONNECTED := by rw [hst]; decide
    have n2 : ¬ (s._state = WIFIMGR_CONNECTED ∨ s._state = WIFIMGR_DISCONNECTED_LOSS ∨
        s._state = WIFIMGR_INITIAL) := by rw [hst]; decide
    rw [if_neg n1, if_neg n2] at h4
    simp only [List.replicate, WiFiMgr.ticks, List.append_nil]
    exact ⟨h5.1, h5.2, by rw [h4]; rfl⟩
  | succ j ih =>
    have hearly : d < s.reconnect_timer := by
      rw [ht]
      nlinarith
    obtain ⟨h1, h2⟩ := ReconnectAttempt_down_early s d hrun hearly
    obtain ⟨h3, h4⟩ := ReconnectAttempt_connecting_early s d hrun hst hearly
    have h5 := ReconnectAttempt_fields s d false
    have h6 := ReconnectAttempt_credentials s d false
    rw [u32_sub_of_lt _ _ hlt hearly] at h1
    have ht2 : (s.ReconnectAttempt d false).1.reconnect_timer = (j + 1) * d := by
      rw [h1, ht]
      have : (j + 1 + 1) * d = (j + 1) * d + d := by ring
      omega
    have hlt2 : (s.ReconnectAttempt d false).1.reconnect_timer < UINT32_MOD := by omega
    have := ih (s.ReconnectAttempt d false).1 (by rw [h5.1, hrun]) h3 ht2 hlt2
    rw [h2, h6.1, h6.2,
      Connect_calls_congr s (s.ReconnectAttempt d false).1 h5.2.1 h6.1 h6.2] at this
    rw [List.replicate_succ]
    simp only [WiFiMgr.ticks, h4, List.nil_append]
    exact this

/-- The calls of `m` retry periods in station mode with the link down, from
state CONNECTING and a full timer: for each period the attempt log line and,
when the counter is a multiple of 10, the escalation log line followed by the
calls of `Connect()`. -/
theorem ticks_periods_calls (d k : Nat) (hd : 0 < d) (hk : 0 < k) (hkd : k * d = 1000)
    (m : Nat) (s : WiFiMgr) (hrun : s._running = true) (hap : s._ap_mode = false)
    (hst : s._state = WIFIMGR_CONNECTING) (ht : s.reconnect_timer = 1000)
    (ha : s.attempt_count + m < 4294967296) :
    (WiFiMgr.ticks s (List.replicate (m * k) (d, false))).1._ssid = s._ssid ∧
    (WiFiMgr.ticks s (List.replicate (m * k) (d, false))).1._password = s._password ∧
    (WiFiMgr.ticks s (List.replicate (m * k) (d, false))).2 =
      (List.range m).flatMap (fun i =>
        Call.log (LogLine.attempt_number (s.attempt_count + i)) ::
          (if (s.attempt_count + i) % 10 = 0 then
            Call.log (LogLine.cant_connect_after (s.attempt_count + i)) :: s.Connect.2
          else [])) := by
  induction m with
  | zero => simp [WiFiMgr.ticks]
  | succ m ih =>
    obtain ⟨c1, c2, c3⟩ := ih (by omega)
    obtain ⟨i1, i2, i3, i4, i5, _⟩ :=
      ticks_periods d k hd hk hkd m s hrun hap hst ht (by omega)
    obtain ⟨j, hj⟩ : ∃ j, k = j + 1 := ⟨k - 1, by omega⟩
    have e : (m + 1) * k = m * k + (j + 1) := by rw [Nat.succ_mul, hj]
    obtain ⟨p1, p2, p3⟩ := ticks_one_period_calls d hd j
      (WiFiMgr.ticks s (List.replicate (m * k) (d, false))).1 i1 i3
      (by rw [i4, ← hj, hkd]) (by rw [i4]; unfold UINT32_MOD; omega)
    have hcon : (WiFiMgr.ticks s (List.replicate (m * k) (d, false))).1.Connect.2
        = s.Connect.2 :=
      Connect_calls_congr s _ (by rw [i2, hap]) c1 c2
    rw [i5, hcon] at p3
    rw [e, List.replicate_add, ticks_append]
    refine ⟨by rw [p1, c1], by rw [p2, c2], ?_⟩
    show (WiFiMgr.ticks s (List.replicate (m * k) (d, false))).2 ++
        (WiFiMgr.ticks (WiFiMgr.ticks s (List.replicate (m * k) (d, false))).1
          (List.replicate (j + 1) (d, false))).2 = _
    rw [c3, p3, List.range_succ, List.flatMap_append]
    simp

/-- C5: from the fresh counters (timer 1000, attempt 1), after `begin` in station
mode, `10000 / d` connection ticks of a fixed size `d` dividing 1000, all with
the link down, leave attempt at 11 and the state CONNECTING.  The calls of the
ticks are the ten attempt log lines, then the escalation log line of attempt 10
followed by the forced `Connect()` (disconnect, then `WiFi.begin` with the
configured credentials): exactly one escalation, which is the only connect
request the ticks make; `begin` itself logs no escalation. -/
theorem scenario1_ten_periods (s : WiFiMgr) (ssid password : String) (d : Nat)
    (hd : d ∣ 1000) (ht : s.reconnect_timer = 1000) (ha : s.attempt_count = 1) :
    (WiFiMgr.ticks (s.begin false ssid password).1
      (List.replicate (10000 / d) (d, false))).1.attempt_count = 11 ∧
    escalations ((s.begin false ssid password).2 ++
      (WiFiMgr.ticks (s.begin false ssid password).1
        (List.replicate (10000 / d) (d, false))).2) = 1 ∧
    (WiFiMgr.ticks (s.begin false ssid password).1
      (List.replicate (10000 / d) (d, false))).2 =
      [Call.log (LogLine.attempt_number 1), Call.log (LogLine.attempt_number 2),
        Call.log (LogLine.attempt_number 3), Call.log (LogLine.attempt_number 4),
        Call.log (LogLine.attempt_number 5), Call.log (LogLine.attempt_number 6),
        Call.log (LogLine.attempt_number 7), Call.log (LogLine.attempt_number 8),
        Call.log (LogLine.attempt_number 9), Call.log (LogLine.attempt_number 10),
        Call.log (LogLine.cant_connect_after 10), Call.WiFi_disconnect,
        Call.log LogLine.client_connection_started, Call.WiFi_begin ssid password] ∧
    connectRequests (WiFiMgr.ticks (s.begin false ssid password).1
      (List.replicate (10000 / d) (d, false))).2 = 1 ∧
    escalations (WiFiMgr.ticks (s.begin false ssid password).1
      (List.replicate (10000 / d) (d, false))).2 = 1 ∧
    connectRequests ((s.begin false ssid password).2 ++
      (WiFiMgr.ticks (s.begin false ssid password).1
        (List.replicate (10000 / d) (d, false))).2) = 2 ∧
    (WiFiMgr.ticks (s.begin false ssid password).1
      (List.replicate (10000 / d) (d, false))).1._state = WIFIMGR_CONNECTING := by
  obtain ⟨k, hk⟩ := hd
  have hd0 : 0 < d := by
    rcases Nat.eq_zero_or_pos d with h | h
    · rw [h] at hk; omega
    · exact h
  have hk0 : 0 < k := by
    rcases Nat.eq_zero_or_pos k with h | h
    · rw [h] at hk; omega
    · exact h
  have e : 10000 / d = 10 * k := by
    have : 10000 = d * (10 * k) := by rw [← Nat.mul_assoc, Nat.mul_comm d 10, Nat.mul_assoc, ← hk]
    rw [this, Nat.mul_div_cancel_left _ hd0]
  have b1 : (s.begin false ssid password).1._running = true := by
    simp [WiFiMgr.begin, Connect_fields]
  have b2 : (s.begin false ssid password).1._ap_mode = false := by
    simp [WiFiMgr.begin, Connect_fields]
  have b3 : (s.begin false ssid password).1._state = WIFIMGR_CONNECTING := by
    simp [WiFiMgr.begin, Connect_fields, Connect_state]
  have b4 : (s.begin false ssid password).1.reconnect_timer = 1000 := by
    simp [WiFiMgr.begin, Connect_fields, ht]
  have b5 : (s.begin false ssid password).1.attempt_count = 1 := by
    simp [WiFiMgr.begin, Connect_fields, ha]
  have b6 : (s.begin false ssid password).1._ssid = ssid := by
    simp [WiFiMgr.begin, Connect_fields]
  have b7 : (s.begin false ssid password).1._password = password := by
    simp [WiFiMgr.begin, Connect_fields]
  have b8 : (s.begin false ssid password).1.Connect.2 =
      [Call.WiFi_disconnect, Call.log LogLine.client_connection_started,
        Call.WiFi_begin ssid password] := by
    rw [Connect_calls, b2, b6, b7]
    rfl
  have b9 : (s.begin false ssid password).2 =
      [Call.WiFi_disconnect, Call.log LogLine.client_connection_started,
        Call.WiFi_begin ssid password, Call.xTaskCreate] := by
    simp [WiFiMgr.begin, Connect_fields, Connect_calls]
  have hkd : k * d = 1000 := by rw [Nat.mul_comm]; exact hk.symm
  obtain ⟨_, _, p3, _, p5, p6⟩ := ticks_periods d k hd0 hk0 hkd 10
    (s.begin false ssid password).1 b1 b2 b3 b4 (by rw [b5]; omega)
  obtain ⟨_, _, q3⟩ := ticks_periods_calls d k hd0 hk0 hkd 10
    (s.begin false ssid password).1 b1 b2 b3 b4 (by rw [b5]; omega)
  rw [b5, b8] at q3
  have q4 : (WiFiMgr.ticks (s.begin false ssid password).1
      (List.replicate (10 * k) (d, false))).2 =
      [Call.log (LogLine.attempt_number 1), Call.log (LogLine.attempt_number 2),
        Call.log (LogLine.attempt_number 3), Call.log (LogLine.attempt_number 4),
        Call.log (LogLine.attempt_number 5), Call.log (LogLine.attempt_number 6),
        Call.log (LogLine.attempt_number 7), Call.log (LogLine.attempt_number 8),
        Call.log (LogLine.attempt_number 9), Call.log (LogLine.attempt_number 10),
        Call.log (LogLine.cant_connect_after 10), Call.WiFi_disconnect,
        Call.log LogLine.client_connection_started, Call.WiFi_begin ssid password] := by
    rw [q3]
    rfl
  rw [e, q4, b9]
  exact ⟨by rw [p5, b5], rfl, rfl, rfl, rfl, rfl, p3⟩

/-- Twenty ticks of 500 ms after `WiFiManager.begin(false, "net", "secret")`. -/
theorem scenario1_ten_periods_witness :
    (500 ∣ 1000 ∧ WiFiManager.reconnect_timer = 1000 ∧ WiFiManager.attempt_count = 1) ∧
    (WiFiMgr.ticks (WiFiManager.begin false "net" "secret").1
      (List.replicate (10000 / 500) (500, false))).1.attempt_count = 11 ∧
    escalations ((WiFiManager.begin false "net" "secret").2 ++
      (WiFiMgr.ticks (WiFiManager.begin false "net" "secret").1
        (List.replicate (10000 / 500) (500, false))).2) = 1 ∧
    connectRequests (WiFiMgr.ticks (WiFiManager.begin false "net" "secret").1
      (List.replicate (10000 / 500) (500, false))).2 = 1 ∧
    (WiFiMgr.ticks (WiFiManager.begin false "net" "secret").1
      (List.replicate (10000 / 500) (500, false))).1._state = WIFIMGR_CONNECTING :=
  ⟨⟨by decide, by decide, by decide⟩,
   (scenario1_ten_periods WiFiManager "net" "secret" 500 (by decide) (by decide)
     (by decide)).1,
   (scenario1_ten_periods WiFiManager "net" "secret" 500 (by decide) (by decide)
     (by decide)).2.1,
   (scenario1_ten_periods WiFiManager "net" "secret" 500 (by decide) (by decide)
     (by decide)).2.2.2.1,
   (scenario1_ten_periods WiFiManager "net" "secret" 500 (by decide) (by decide)
     (by decide)).2.2.2.2.2.2⟩

/-! ### The time-available flag -/

/-- A time tick never clears `_time_initialized`. -/
theorem TimeCheck_time_initialized (s : WiFiMgr) (d : Nat) (c : Bool) (clock : Clock)
    (h : s._time_initialized = true) : (s.TimeCheck d c clock).1._time_initialized = true := by
  unfold WiFiMgr.TimeCheck
  simp [h]

/-- No operation clears `_time_initialized`. -/
theorem Op_apply_time_initialized (s : WiFiMgr) (op : Op) (h : s._time_initialized = true) :
    (op.apply s)._time_initialized = true := by
  cases op with
  | begin ap_mode ssid password =>
    simp only [Op.apply, WiFiMgr.begin]
    split <;> simp [Connect_fields, h]
  | EnableTimeMgr g d s1 s2 s3 => exact h
  | Disconnect => exact h
  | IsConnected c => exact h
  | IsTimeAvailable => exact h
  | GetTimeFormat f c => exact h
  | GetTimeInfo c => exact h
  | ReconnectAttempt d c =>
    simp only [Op.apply]
    rw [(ReconnectAttempt_fields s d c).2.2.2.1, h]
  | TimeCheck d c clock => exact TimeCheck_time_initialized s d c clock h

/-- No sequence of operations clears `_time_initialized`. -/
theorem runOps_time_initialized (s : WiFiMgr) (ops : List Op)
    (h : s._time_initialized = true) : (runOps s ops)._time_initialized = true := by
  induction ops generalizing s with
  | nil => exact h
  | cons op rest ih =>
    simp only [runOps, List.foldl_cons]
    exact ih (op.apply s) (Op_apply_time_initialized s op h)

/-- C6: once `IsTimeAvailable()` is true it is true after every sequence of
operations (connection ticks and time ticks with any elapsed value, link truth
and clock answer, `begin`, `EnableTimeMgr`, `Disconnect`, the queries). -/
theorem time_available_monotonic (s : WiFiMgr) (ops : List Op)
    (h : s.IsTimeAvailable = true) : (runOps s ops).IsTimeAvailable = true := by
  unfold WiFiMgr.IsTimeAvailable at h ⊢
  exact runOps_time_initialized s ops h

/-- The flag after the link is lost, a failing time tick, a `Disconnect` and a
new `begin`, from a record where the time was obtained. -/
theorem time_available_monotonic_witness :
    stationTimed.IsTimeAvailable = true ∧
    (runOps stationTimed
      [Op.ReconnectAttempt 500 false, Op.TimeCheck 500 false Clock.failing,
        Op.ReconnectAttempt 500 false, Op.Disconnect, Op.GetTimeInfo Clock.failing,
        Op.begin false "net" "secret"]).IsTimeAvailable = true :=
  ⟨by decide, time_available_monotonic stationTimed _ (by decide)⟩

/-! ### Requested disconnect -/

/-- C7: calling `Disconnect()` twice in a row leaves the same record as calling
it once: `_running` false, state DISCONNECTED_REQUESTED, every other field and
counter as the first call left it; the second call makes the same driver calls
as the first. -/
theorem Disconnect_idempotent (s : WiFiMgr) :
    s.Disconnect.1.Disconnect.1 = s.Disconnect.1 ∧
    s.Disconnect.1._running = false ∧
    s.Disconnect.1._state = WIFIMGR_DISCONNECTED_REQUESTED ∧
    s.Disconnect.1.Disconnect.1._running = false ∧
    s.Disconnect.1.Disconnect.1._state = WIFIMGR_DISCONNECTED_REQUESTED ∧
    s.Disconnect.1.Disconnect.2 = s.Disconnect.2 := by
  refine ⟨?_, ?_, ?_, ?_, ?_, ?_⟩ <;> simp [WiFiMgr.Disconnect]

/-! ### The time queries -/

/-- C8: whenever `IsTimeAvailable()` is false, for every format string and every
clock service, `GetTimeFormat` returns "NN:NN:NN" and `GetTimeInfo` returns
false, and neither calls the clock service. -/
theorem time_queries_sentinel (s : WiFiMgr) (format : String) (clock : Clock)
    (h : s.IsTimeAvailable = false) :
    (s.GetTimeFormat format clock).1 = "NN:NN:NN" ∧
    (s.GetTimeFormat format clock).2 = [] ∧
    (s.GetTimeInfo clock).1 = false ∧
    (s.GetTimeInfo clock).2.2 = [] := by
  unfold WiFiMgr.IsTimeAvailable at h
  simp [WiFiMgr.GetTimeFormat, WiFiMgr.GetTimeInfo, h]

/-- The queries right after `begin`, with a clock that would answer. -/
theorem time_queries_sentinel_witness :
    station0.IsTimeAvailable = false ∧
    (station0.GetTimeFormat "%H:%M:%S" (Clock.ok tm.sample)).1 = "NN:NN:NN" ∧
    (station0.GetTimeFormat "%H:%M:%S" (Clock.ok tm.sample)).2 = [] ∧
    (station0.GetTimeInfo (Clock.ok tm.sample)).1 = false ∧
    (station0.GetTimeInfo (Clock.ok tm.sample)).2.2 = [] :=
  ⟨by decide, time_queries_sentinel station0 "%H:%M:%S" (Clock.ok tm.sample) (by decide)⟩

/-! ### Scenario 3: time acquisition after the link connects -/

/-- A time tick writes `_time_initialized` and its own timer only. -/
theorem TimeCheck_fields (s : WiFiMgr) (d : Nat) (c : Bool) (clock : Clock) :
    (s.TimeCheck d c clock).1._running = s._running ∧
    (s.TimeCheck d c clock).1._state = s._state ∧
    (s.TimeCheck d c clock).1._time_management = s._time_management := by
  unfold WiFiMgr.TimeCheck
  split
  · exact ⟨rfl, rfl, rfl⟩
  · split
    · cases clock.getLocalTime <;> exact ⟨rfl, rfl, rfl⟩
    · exact ⟨rfl, rfl, rfl⟩

/-- A time tick with the gate open (time management enabled, state CONNECTED,
link connected) and a clock query that succeeds: the time becomes available
when the time timer is due, otherwise the timer is counted down. -/
theorem TimeCheck_gate_open (s : WiFiMgr) (d : Nat) (clock : Clock) (t : tm)
    (hc : clock.getLocalTime = some t) (htm : s._time_management = true)
    (hst : s._state = WIFIMGR_CONNECTED) (hlt : s.time_initialization_timer < UINT32_MOD) :
    (s.TimeCheck d true clock).1._time_initialized = true ∨
    (d < s.time_initialization_timer ∧
      (s.TimeCheck d true clock).1.time_initialization_timer
        = s.time_initialization_timer - d) := by
  by_cases hi : s._time_initialized = true
  · exact Or.inl (TimeCheck_time_initialized s d true clock hi)
  · have hi2 : s._time_initialized = false := by
      cases h : s._time_initialized
      · rfl
      · exact absurd h hi
    by_cases hd : s.time_initialization_timer ≤ d
    · left
      unfold WiFiMgr.TimeCheck
      simp [hi2, htm, hst, WiFiMgr.IsConnected, hd, hc]
    · right
      have hd2 : d < s.time_initialization_timer := by omega
      refine ⟨hd2, ?_⟩
      unfold WiFiMgr.TimeCheck
      simp [hi2, htm, hst, WiFiMgr.IsConnected, hd, u32_sub_of_lt _ _ hlt hd2]

/-- A connection tick with the link connected, from CONNECTING or CONNECTED,
ends in CONNECTED. -/
theorem ReconnectAttempt_link_up_state (s : WiFiMgr) (d : Nat)
    (hst : s._state = WIFIMGR_CONNECTING ∨ s._state = WIFIMGR_CONNECTED) :
    (s.ReconnectAttempt d true).1._state = WIFIMGR_CONNECTED := by
  unfold WiFiMgr.ReconnectAttempt
  rcases hst with h | h <;> simp [h]

/-- One cycle of `Run` with the link connected and a clock query that succeeds,
from CONNECTING or CONNECTED with time management enabled: the cycle ends in
CONNECTED, still running, and either the time is available or the time timer
was not due and has been counted down. -/
theorem Run_cycle_link_up (s : WiFiMgr) (d : Nat) (clock : Clock) (t : tm)
    (hc : clock.getLocalTime = some t) (hrun : s._running = true)
    (htm : s._time_management = true)
    (hst : s._state = WIFIMGR_CONNECTING ∨ s._state = WIFIMGR_CONNECTED)
    (hlt : s.time_initialization_timer < UINT32_MOD) :
    (s.Run_cycle d true true clock).1._running = true ∧
    (s.Run_cycle d true true clock).1._time_management = true ∧
    (s.Run_cycle d true true clock).1._state = WIFIMGR_CONNECTED ∧
    ((s.Run_cycle d true true clock).1._time_initialized = true ∨
      (d < s.time_initialization_timer ∧
        (s.Run_cycle d true true clock).1.time_initialization_timer
          = s.time_initialization_timer - d)) := by
  have f := ReconnectAttempt_fields s d true
  have g := TimeCheck_fields (s.ReconnectAttempt d true).1 d true clock
  have st := ReconnectAttempt_link_up_state s d hst
  have o := TimeCheck_gate_open (s.ReconnectAttempt d true).1 d clock t hc
    (by rw [f.2.2.1, htm]) st (by rw [f.2.2.2.2]; exact hlt)
  rw [f.2.2.2.2] at o
  unfold WiFiMgr.Run_cycle
  exact ⟨by rw [g.1, f.1, hrun], by rw [g.2.2, f.2.2.1, htm], by rw [g.2.1, st], o⟩

/-- C9 (counterexample): with time management enabled, after `begin` in station
mode the link connects on a cycle of 500 ms: `ReconnectAttempt` sets CONNECTED,
and the time tick that follows, with a clock query that succeeds, only counts
the 1000 ms timer down to 500; `IsTimeAvailable()` is still false after it. -/
theorem scenario3_one_time_tick_not_enough :
    stationTimeEnabled._time_management = true ∧
    stationTimeEnabled.time_initialization_timer = 1000 ∧
    (stationTimeEnabled.ReconnectAttempt sleep_timer_const true).1._state
      = WIFIMGR_CONNECTED ∧
    (stationTimeEnabled.ReconnectAttempt sleep_timer_const true).1.IsConnected true = true ∧
    ((stationTimeEnabled.ReconnectAttempt sleep_timer_const true).1.TimeCheck
      sleep_timer_const true (Clock.ok tm.sample)).1.IsTimeAvailable = false ∧
    ((stationTimeEnabled.ReconnectAttempt sleep_timer_const true).1.TimeCheck
      sleep_timer_const true (Clock.ok tm.sample)).1.time_initialization_timer = 500 ∧
    (stationTimeEnabled.Run
      [(sleep_timer_const, true, true, Clock.ok tm.sample)]).1.IsTimeAvailable = false := by
  decide

/-- C9 (amended): with time management enabled and a clock query that always
succeeds, from a running supervisor in CONNECTING or CONNECTED whose time timer
is at most 1000, two cycles of `Run` of the driver's period (500 ms) on which
the link is connected make `IsTimeAvailable()` true: within two time ticks
after the connection, the first of which only counts the timer down; and it is
still true after every later sequence of operations, ticks on which the link is
lost included. -/
theorem scenario3_time_available (s : WiFiMgr) (c1 c2 : Clock) (t1 t2 : tm) (ops : List Op)
    (hc1 : c1.getLocalTime = some t1) (hc2 : c2.getLocalTime = some t2)
    (hrun : s._running = true) (htm : s._time_management = true)
    (hst : s._state = WIFIMGR_CONNECTING ∨ s._state = WIFIMGR_CONNECTED)
    (hti : s.time_initialization_timer ≤ 1000) :
    (s.Run [(sleep_timer_const, true, true, c1),
      (sleep_timer_const, true, true, c2)]).1.IsTimeAvailable = true ∧
    (runOps (s.Run [(sleep_timer_const, true, true, c1),
      (sleep_timer_const, true, true, c2)]).1 ops).IsTimeAvailable = true := by
  obtain ⟨a1, a2, a3, a4⟩ := Run_cycle_link_up s sleep_timer_const c1 t1 hc1 hrun htm hst
    (by unfold UINT32_MOD; omega)
  have hlt2 : (s.Run_cycle sleep_timer_const true true c1).1.time_initialization_timer
      ≤ 1000 ∨ (s.Run_cycle sleep_timer_const true true c1).1._time_initialized = true := by
    rcases a4 with h | h
    · exact Or.inr h
    · left
      rw [h.2]
      omega
  have e : (s.Run [(sleep_timer_const, true, true, c1),
      (sleep_timer_const, true, true, c2)]).1
      = ((s.Run_cycle sleep_timer_const true true c1).1.Run_cycle
          sleep_timer_const true true c2).1 := by
    simp [WiFiMgr.Run, hrun, a1]
  have key : ((s.Run_cycle sleep_timer_const true true c1).1.Run_cycle
      sleep_timer_const true true c2).1._time_initialized = true := by
    rcases a4 with h | h
    · unfold WiFiMgr.Run_cycle
      apply TimeCheck_time_initialized
      rw [(ReconnectAttempt_fields _ _ _).2.2.2.1]
      exact h
    · obtain ⟨_, _, _, b4⟩ := Run_cycle_link_up (s.Run_cycle sleep_timer_const true true c1).1
        sleep_timer_const c2 t2 hc2 a1 a2 (Or.inr a3) (by rw [h.2]; unfold UINT32_MOD; omega)
      rcases b4 with h2 | h2
      · exact h2
      · exfalso
        have h3 := h2.1
        rw [h.2] at h3
        unfold sleep_timer_const at h3
        omega
  rw [e]
  exact ⟨key, runOps_time_initialized _ ops key⟩

/-- Two cycles of 500 ms with the link connected after
`EnableTimeMgr` and `begin(false, "net", "secret")`, then the link is lost. -/
theorem scenario3_time_available_witness :
    (stationTimeEnabled._running = true ∧ stationTimeEnabled._time_management = true ∧
      stationTimeEnabled._state = WIFIMGR_CONNECTING ∧
      stationTimeEnabled.time_initialization_timer ≤ 1000) ∧
    (stationTimeEnabled.Run [(sleep_timer_const, true, true, Clock.ok tm.sample),
      (sleep_timer_const, true, true, Clock.ok tm.sample)]).1.IsTimeAvailable = true ∧
    (runOps (stationTimeEnabled.Run [(sleep_timer_const, true, true, Clock.ok tm.sample),
      (sleep_timer_const, true, true, Clock.ok tm.sample)]).1
      [Op.ReconnectAttempt 500 false, Op.TimeCheck 500 false Clock.failing,
        Op.ReconnectAttempt 500 false]).IsTimeAvailable = true :=
  ⟨by decide,
   scenario3_time_available stationTimeEnabled (Clock.ok tm.sample) (Clock.ok tm.sample)
     tm.sample tm.sample _ rfl rfl (by decide) (by decide) (Or.inl (by decide)) (by decide)⟩

/-! ### Scenario 4: access-point mode -/

/-- In access-point mode a connection tick leaves the state SOFT_AP as it is,
whatever the elapsed value and the link truth. -/
theorem ReconnectAttempt_soft_ap (s : WiFiMgr) (d : Nat) (c : Bool) (hap : s._ap_mode = true)
    (hst : s._state = WIFIMGR_SOFT_AP) :
    (s.ReconnectAttempt d c).1._ap_mode = true ∧
    (s.ReconnectAttempt d c).1._state = WIFIMGR_SOFT_AP := by
  refine ⟨by rw [(ReconnectAttempt_fields s d c).2.1, hap], ?_⟩
  by_cases h0 : (!s._running || c) = true
  · unfold WiFiMgr.ReconnectAttempt
    rw [if_pos h0]
    simp [hst]
  · have hrun : s._running = true := by
      cases hr : s._running <;> simp [hr] at h0 ⊢
    have hc : c = false := by
      cases c <;> simp at h0 ⊢
    subst hc
    by_cases hd : s.reconnect_timer ≤ d
    · rw [ReconnectAttempt_down_due_state s d hrun hd, Connect_state, hap, hst]
      simp
    · unfold WiFiMgr.ReconnectAttempt
      simp [hrun, hst, hd]

/-- In access-point mode a sequence of connection ticks leaves the state SOFT_AP
as it is. -/
theorem ticks_soft_ap (l : List (Nat × Bool)) (s : WiFiMgr) (hap : s._ap_mode = true)
    (hst : s._state = WIFIMGR_SOFT_AP) :
    (WiFiMgr.ticks s l).1._ap_mode = true ∧ (WiFiMgr.ticks s l).1._state = WIFIMGR_SOFT_AP := by
  induction l generalizing s with
  | nil => exact ⟨hap, hst⟩
  | cons i rest ih =>
    obtain ⟨h1, h2⟩ := ReconnectAttempt_soft_ap s i.1 i.2 hap hst
    simpa [WiFiMgr.ticks] using ih (s.ReconnectAttempt i.1 i.2).1 h1 h2

/-- C10: `begin` in access-point mode leaves the state SOFT_AP, and after every
sequence of connection ticks that follows, with any elapsed values and any
link truth on each tick, the state is SOFT_AP, hence neither CONNECTING nor
DISCONNECTED_LOSS. -/
theorem scenario4_soft_ap_stays (s : WiFiMgr) (ssid password : String)
    (l : List (Nat × Bool)) :
    (s.begin true ssid password).1._state = WIFIMGR_SOFT_AP ∧
    (WiFiMgr.ticks (s.begin true ssid password).1 l).1._state = WIFIMGR_SOFT_AP ∧
    (WiFiMgr.ticks (s.begin true ssid password).1 l).1._state ≠ WIFIMGR_CONNECTING ∧
    (WiFiMgr.ticks (s.begin true ssid password).1 l).1._state
      ≠ WIFIMGR_DISCONNECTED_LOSS := by
  have b1 : (s.begin true ssid password).1._ap_mode = true := by
    simp [WiFiMgr.begin, Connect_fields]
  have b2 : (s.begin true ssid password).1._state = WIFIMGR_SOFT_AP := by
    simp [WiFiMgr.begin, Connect_fields, Connect_state]
  have h := (ticks_soft_ap l _ b1 b2).2
  refine ⟨b2, h, ?_, ?_⟩ <;> rw [h] <;> decide

/-- Access-point start from the global record, then five ticks on which the link
truth oscillates, with the retry timer due on some and not on others. -/
theorem scenario4_soft_ap_stays_witness :
    (WiFiManager.begin true "esp" "").1._state = WIFIMGR_SOFT_AP ∧
    (WiFiMgr.ticks (WiFiManager.begin true "esp" "").1
      [(500, true), (500, false), (1000, false), (0, true), (2000, false)]).1._state
      = WIFIMGR_SOFT_AP ∧
    (WiFiMgr.ticks (WiFiManager.begin true "esp" "").1
      [(500, true), (500, false), (1000, false), (0, true), (2000, false)]).1._state
      ≠ WIFIMGR_CONNECTING ∧
    (WiFiMgr.ticks (WiFiManager.begin true "esp" "").1
      [(500, true), (500, false), (1000, false), (0, true), (2000, false)]).1._state
      ≠ WIFIMGR_DISCONNECTED_LOSS :=
  scenario4_soft_ap_stays WiFiManager "esp" "" _

/-! ### Connection tick while the link is connected or the supervisor is stopped -/

/-- A connection tick that observes the link connected, or `_running` false,
from a state other than CONNECTING: the retry timer and the attempt counter are
reset, nothing else is written and nothing is called. -/
theorem ReconnectAttempt_reset_only (s : WiFiMgr) (d : Nat) (c : Bool)
    (h0 : s._running = false ∨ c = true) (hst : s._state ≠ WIFIMGR_CONNECTING) :
    s.ReconnectAttempt d c = ({ s with reconnect_timer := 1000, attempt_count := 1 }, []) := by
  unfold WiFiMgr.ReconnectAttempt
  rcases h0 with h | h <;> simp [h, hst]

/-- Connection ticks on a stopped supervisor in DISCONNECTED_REQUESTED leave it
stopped, in that state, and call nothing. -/
theorem ticks_stopped (l : List (Nat × Bool)) (s : WiFiMgr) (hrun : s._running = false)
    (hst : s._state = WIFIMGR_DISCONNECTED_REQUESTED) :
    (WiFiMgr.ticks s l).1._running = false ∧
    (WiFiMgr.ticks s l).1._state = WIFIMGR_DISCONNECTED_REQUESTED ∧
    (WiFiMgr.ticks s l).2 = [] := by
  induction l generalizing s with
  | nil => exact ⟨hrun, hst, rfl⟩
  | cons i rest ih =>
    have e := ReconnectAttempt_reset_only s i.1 i.2 (Or.inl hrun) (by rw [hst]; decide)
    have := ih { s with reconnect_timer := 1000, attempt_count := 1 } hrun hst
    simp only [WiFiMgr.ticks, e, List.nil_append]
    exact this

/-- C11: `Disconnect()` called while the state is CONNECTING leaves the state
DISCONNECTED_REQUESTED, and every sequence of connection ticks that follows,
with any elapsed values, any link truth and any attempt value, makes no connect
request (it calls nothing at all) and leaves the state DISCONNECTED_REQUESTED. -/
theorem scenario5_disconnect_mid_connecting (s : WiFiMgr) (l : List (Nat × Bool))
    (hst : s._state = WIFIMGR_CONNECTING) :
    s.Disconnect.1._state = WIFIMGR_DISCONNECTED_REQUESTED ∧
    (WiFiMgr.ticks s.Disconnect.1 l).1._state = WIFIMGR_DISCONNECTED_REQUESTED ∧
    connectRequests (WiFiMgr.ticks s.Disconnect.1 l).2 = 0 ∧
    (WiFiMgr.ticks s.Disconnect.1 l).2 = [] := by
  have _h := hst
  obtain ⟨_, h2, h3⟩ := ticks_stopped l s.Disconnect.1 rfl rfl
  exact ⟨rfl, h2, by rw [h3]; rfl, h3⟩

/-- `Disconnect()` right after `begin` in station mode with attempt 10 and the
retry timer at 500, then ticks on which the timer would be due and the link
truth oscillates. -/
theorem scenario5_disconnect_mid_connecting_witness :
    station10._state = WIFIMGR_CONNECTING ∧
    station10.Disconnect.1._state = WIFIMGR_DISCONNECTED_REQUESTED ∧
    (WiFiMgr.ticks station10.Disconnect.1
      [(500, false), (1000, false), (500, true), (2000, false)]).1._state
      = WIFIMGR_DISCONNECTED_REQUESTED ∧
    connectRequests (WiFiMgr.ticks station10.Disconnect.1
      [(500, false), (1000, false), (500, true), (2000, false)]).2 = 0 ∧
    (WiFiMgr.ticks station10.Disconnect.1
      [(500, false), (1000, false), (500, true), (2000, false)]).2 = [] :=
  ⟨by decide, scenario5_disconnect_mid_connecting station10 _ (by decide)⟩

/-- C12 (counterexample): after `Disconnect()` on a record whose attempt counter
is 10, and before any tick, the attempt counter is still 10, not 1. -/
theorem Disconnect_attempt_not_reset :
    station10.attempt_count = 10 ∧
    station10.Disconnect.1.attempt_count = 10 ∧
    station10.Disconnect.1.attempt_count ≠ 1 := by
  decide

/-- C12 (amended): `Disconnect()` leaves the attempt counter (and the retry
timer) as it was; the counter is 1 after the first connection tick run after
`Disconnect()`, for every elapsed value and link truth. -/
theorem Disconnect_attempt_reset_on_next_tick (s : WiFiMgr) (d : Nat) (c : Bool) :
    s.Disconnect.1.attempt_count = s.attempt_count ∧
    s.Disconnect.1.reconnect_timer = s.reconnect_timer ∧
    (s.Disconnect.1.ReconnectAttempt d c).1.attempt_count = 1 ∧
    (s.Disconnect.1.ReconnectAttempt d c).1.reconnect_timer = 1000 := by
  have e := ReconnectAttempt_reset_only s.Disconnect.1 d c (Or.inl rfl)
    (by simp [WiFiMgr.Disconnect])
  rw [e]
  exact ⟨rfl, rfl, rfl, rfl⟩

/-! ### `Connect()` and `IsConnected()` -/

/-- A string has no character exactly when it is the empty string. -/
theorem String_length_pos_iff (p : String) : ¬ (p.length > 0) ↔ p = "" := by
  constructor
  · intro h
    have h2 : p.data.length = 0 := by
      have : p.length = p.data.length := rfl
      omega
    exact String.ext (List.length_eq_zero.mp h2)
  · intro h
    subst h
    decide

/-- C13: `Connect()` first asks the driver to disconnect; then in access-point
mode it starts the access point with the configured ssid, with no password
exactly when the configured password is empty and with the configured password
otherwise, and sets the state to SOFT_AP; in station mode it starts an
association with the configured ssid and password and sets the state to
CONNECTING; the prior state plays no part. -/
theorem Connect_contract (s : WiFiMgr) :
    s.Connect.2.head? = some Call.WiFi_disconnect ∧
    (s._ap_mode = true →
      ∃ ap_pass : Option String,
        s.Connect.2 = [Call.WiFi_disconnect, Call.WiFi_softAP s._ssid ap_pass,
          Call.log LogLine.softAP_initialized] ∧
        (ap_pass = none ↔ s._password = "") ∧
        (s._password ≠ "" → ap_pass = some s._password) ∧
        s.Connect.1._state = WIFIMGR_SOFT_AP) ∧
    (s._ap_mode = false →
      s.Connect.2 = [Call.WiFi_disconnect, Call.log LogLine.client_connection_started,
        Call.WiFi_begin s._ssid s._password] ∧
      s.Connect.1._state = WIFIMGR_CONNECTING) := by
  refine ⟨?_, ?_, ?_⟩
  · rw [Connect_calls]
    split <;> rfl
  · intro hap
    refine ⟨if s._password.length > 0 then some s._password else none, ?_, ?_, ?_, ?_⟩
    · rw [Connect_calls, if_pos hap]
    · rw [← String_length_pos_iff]
      by_cases hp : s._password.length > 0 <;> simp [hp]
    · intro hne
      have hp : s._password.length > 0 := by
        by_contra hp
        exact hne ((String_length_pos_iff _).mp hp)
      rw [if_pos hp]
    · rw [Connect_state, if_pos hap]
  · intro hap
    constructor
    · rw [Connect_calls, hap]
      rfl
    · rw [Connect_state, hap]
      rfl

/-- `Connect()` on a record in access-point mode with an empty password, in
DISCONNECTED_LOSS, and on the station-mode record after `begin`. -/
theorem Connect_contract_witness :
    (openAp._ap_mode = true ∧ openAp._password = "" ∧
      openAp._state = WIFIMGR_DISCONNECTED_LOSS) ∧
    (∃ ap_pass : Option String,
        openAp.Connect.2 = [Call.WiFi_disconnect, Call.WiFi_softAP openAp._ssid ap_pass,
          Call.log LogLine.softAP_initialized] ∧
        (ap_pass = none ↔ openAp._password = "") ∧
        (openAp._password ≠ "" → ap_pass = some openAp._password) ∧
        openAp.Connect.1._state = WIFIMGR_SOFT_AP) ∧
    station0._ap_mode = false ∧
    (station0.Connect.2 = [Call.WiFi_disconnect, Call.log LogLine.client_connection_started,
        Call.WiFi_begin station0._ssid station0._password] ∧
      station0.Connect.1._state = WIFIMGR_CONNECTING) :=
  ⟨by decide, (Connect_contract openAp).2.1 (by decide), by decide,
    (Connect_contract station0).2.2 (by decide)⟩

/-- C14: `IsConnected()` is true exactly when the link driver reports connected
and the state is CONNECTED; in every other state (CONNECTING,
DISCONNECTED_LOSS, SOFT_AP, INITIAL, DISCONNECTED_REQUESTED) it is false even
when the driver reports connected. -/
theorem IsConnected_iff (s : WiFiMgr) (isConnected : Bool) :
    (s.IsConnected isConnected = true ↔
      (isConnected = true ∧ s._state = WIFIMGR_CONNECTED)) ∧
    ((s._state = WIFIMGR_CONNECTING ∨ s._state = WIFIMGR_DISCONNECTED_LOSS ∨
        s._state = WIFIMGR_SOFT_AP ∨ s._state = WIFIMGR_INITIAL ∨
        s._state = WIFIMGR_DISCONNECTED_REQUESTED) →
      s.IsConnected true = false) := by
  constructor
  · simp [WiFiMgr.IsConnected]
  · intro h
    unfold WiFiMgr.IsConnected
    rcases h with h | h | h | h | h <;> rw [h] <;> rfl

/-- `IsConnected()` right after `begin` in station mode, while CONNECTING, with
the driver reporting connected. -/
theorem IsConnected_iff_witness :
    station0._state = WIFIMGR_CONNECTING ∧ station0.IsConnected true = false :=
  ⟨by decide, (IsConnected_iff station0 true).2 (Or.inl (by decide))⟩

/-! ### Link loss and the connect requests of a tick -/

/-- The state and the calls of a tick with the link down on which the retry
timer is not due: CONNECTED becomes DISCONNECTED_LOSS with the two loss log
lines, every other state is left alone and nothing is called. -/
theorem ReconnectAttempt_down_early_state_calls (s : WiFiMgr) (d : Nat)
    (hrun : s._running = true) (h : d < s.reconnect_timer) :
    (s.ReconnectAttempt d false).1._state =
      (if s._state = WIFIMGR_CONNECTED then WIFIMGR_DISCONNECTED_LOSS else s._state) ∧
    (s.ReconnectAttempt d false).2 =
      (if s._state = WIFIMGR_CONNECTED then
        [Call.log LogLine.connection_loss, Call.log LogLine.internal_status] else []) := by
  have h2 : ¬ s.reconnect_timer ≤ d := by omega
  unfold WiFiMgr.ReconnectAttempt
  by_cases hc : s._state = WIFIMGR_CONNECTED <;> simp [hrun, hc, h2]

/-- The number of connect requests of a due tick with the link down: one when
the state after the loss check is DISCONNECTED_LOSS or INITIAL, and one more
when the attempt counter is a multiple of 10. -/
theorem ReconnectAttempt_down_due_connectRequests (s : WiFiMgr) (d : Nat)
    (hrun : s._running = true) (h : s.reconnect_timer ≤ d) :
    connectRequests (s.ReconnectAttempt d false).2 =
      (if s._state = WIFIMGR_CONNECTED ∨ s._state = WIFIMGR_DISCONNECTED_LOSS ∨
          s._state = WIFIMGR_INITIAL then 1 else 0) +
      (if s.attempt_count % 10 = 0 then 1 else 0) := by
  rw [ReconnectAttempt_down_due_calls s d hrun h]
  have hc1 := (Connect_calls_count s).1
  unfold connectRequests at hc1 ⊢
  split <;> split <;> split <;>
    simp only [List.countP_append, List.countP_cons, List.countP_nil, hc1] <;>
    rfl

/-- The state after the loss check is DISCONNECTED_LOSS or INITIAL exactly when
the prior state is CONNECTED, DISCONNECTED_LOSS or INITIAL. -/
theorem loss_check_iff (st : WIFIMGR_STATE) :
    ((if st = WIFIMGR_CONNECTED then WIFIMGR_DISCONNECTED_LOSS else st)
        = WIFIMGR_DISCONNECTED_LOSS ∨
      (if st = WIFIMGR_CONNECTED then WIFIMGR_DISCONNECTED_LOSS else st) = WIFIMGR_INITIAL) ↔
    (st = WIFIMGR_CONNECTED ∨ st = WIFIMGR_DISCONNECTED_LOSS ∨ st = WIFIMGR_INITIAL) := by
  cases st <;> decide

/-- C15: on a connection tick run while running with the link down and the
prior state CONNECTED, the loss is logged first (the state is moved to
DISCONNECTED_LOSS); if the retry timer is not due the tick ends in
DISCONNECTED_LOSS and makes no connect request; if it is due the loss log lines
are followed by the calls of a `Connect()`, and in station mode the tick ends
in CONNECTING. -/
theorem ReconnectAttempt_link_loss (s : WiFiMgr) (d : Nat) (hrun : s._running = true)
    (hst : s._state = WIFIMGR_CONNECTED) :
    (d < s.reconnect_timer →
      (s.ReconnectAttempt d false).1._state = WIFIMGR_DISCONNECTED_LOSS ∧
      (s.ReconnectAttempt d false).2 =
        [Call.log LogLine.connection_loss, Call.log LogLine.internal_status] ∧
      connectRequests (s.ReconnectAttempt d false).2 = 0) ∧
    (s.reconnect_timer ≤ d →
      (∃ post : List Call, (s.ReconnectAttempt d false).2 =
        [Call.log LogLine.connection_loss, Call.log LogLine.internal_status] ++
          s.Connect.2 ++ post) ∧
      1 ≤ connectRequests (s.ReconnectAttempt d false).2 ∧
      (s._ap_mode = false → (s.ReconnectAttempt d false).1._state = WIFIMGR_CONNECTING)) := by
  constructor
  · intro h
    obtain ⟨h1, h2⟩ := ReconnectAttempt_down_early_state_calls s d hrun h
    rw [if_pos hst] at h1 h2
    exact ⟨h1, h2, by rw [h2]; rfl⟩
  · intro h
    have hc := ReconnectAttempt_down_due_calls s d hrun h
    have hn := ReconnectAttempt_down_due_connectRequests s d hrun h
    have hs := ReconnectAttempt_down_due_state s d hrun h
    rw [if_pos hst, if_pos (Or.inl hst)] at hc
    rw [if_pos (Or.inl hst)] at hn
    rw [if_pos (Or.inr (Or.inl hst)), Connect_state] at hs
    refine ⟨⟨_, by rw [hc, List.append_assoc]⟩, by omega, ?_⟩
    intro hap
    rw [hs, hap]
    rfl

/-- A connected station that loses the link, on a tick of 500 ms with the timer
at 1000 (not due) and on a tick of 1000 ms (due). -/
theorem ReconnectAttempt_link_loss_witness :
    (stationConnected._running = true ∧ stationConnected._state = WIFIMGR_CONNECTED ∧
      500 < stationConnected.reconnect_timer ∧ stationConnected.reconnect_timer ≤ 1000 ∧
      stationConnected._ap_mode = false) ∧
    ((stationConnected.ReconnectAttempt 500 false).1._state = WIFIMGR_DISCONNECTED_LOSS ∧
      (stationConnected.ReconnectAttempt 500 false).2 =
        [Call.log LogLine.connection_loss, Call.log LogLine.internal_status] ∧
      connectRequests (stationConnected.ReconnectAttempt 500 false).2 = 0) ∧
    ((∃ post : List Call, (stationConnected.ReconnectAttempt 1000 false).2 =
        [Call.log LogLine.connection_loss, Call.log LogLine.internal_status] ++
          stationConnected.Connect.2 ++ post) ∧
      1 ≤ connectRequests (stationConnected.ReconnectAttempt 1000 false).2 ∧
      (stationConnected._ap_mode = false →
        (stationConnected.ReconnectAttempt 1000 false).1._state = WIFIMGR_CONNECTING)) :=
  ⟨by decide,
   (ReconnectAttempt_link_loss stationConnected 500 (by decide) (by decide)).1 (by decide),
   (ReconnectAttempt_link_loss stationConnected 1000 (by decide) (by decide)).2 (by decide)⟩

/-- C16: on a connection tick run while running with the link down: when the
retry timer is due, the number of connect requests is 1 if the state after the
loss check is DISCONNECTED_LOSS or INITIAL (0 otherwise) plus 1 if attempt is a
multiple of 10 (0 otherwise); when the timer is not due, no connect request is
made. -/
theorem ReconnectAttempt_connect_request_count (s : WiFiMgr) (d : Nat)
    (hrun : s._running = true) :
    (s.reconnect_timer ≤ d →
      connectRequests (s.ReconnectAttempt d false).2 =
        (if (if s._state = WIFIMGR_CONNECTED then WIFIMGR_DISCONNECTED_LOSS else s._state)
              = WIFIMGR_DISCONNECTED_LOSS ∨
            (if s._state = WIFIMGR_CONNECTED then WIFIMGR_DISCONNECTED_LOSS else s._state)
              = WIFIMGR_INITIAL
          then 1 else 0) +
        (if s.attempt_count % 10 = 0 then 1 else 0)) ∧
    (d < s.reconnect_timer → connectRequests (s.ReconnectAttempt d false).2 = 0) := by
  constructor
  · intro h
    rw [ReconnectAttempt_down_due_connectRequests s d hrun h]
    simp only [loss_check_iff]
  · intro h
    rw [(ReconnectAttempt_down_early_state_calls s d hrun h).2]
    split <;> rfl

/-- A due tick in DISCONNECTED_LOSS with attempt 10 makes two connect requests;
a tick on which the timer is not due makes none. -/
theorem ReconnectAttempt_connect_request_count_witness :
    (stationLost10._running = true ∧ stationLost10.reconnect_timer ≤ 1000 ∧
      stationLost10._state = WIFIMGR_DISCONNECTED_LOSS ∧ stationLost10.attempt_count = 10 ∧
      500 < stationLost10.reconnect_timer) ∧
    connectRequests (stationLost10.ReconnectAttempt 1000 false).2 = 2 ∧
    connectRequests (stationLost10.ReconnectAttempt 500 false).2 = 0 :=
  ⟨by decide,
   (ReconnectAttempt_connect_request_count stationLost10 1000 (by decide)).1 (by decide),
   (ReconnectAttempt_connect_request_count stationLost10 500 (by decide)).2 (by decide)⟩

/-! ### The time-acquisition tick -/

/-- C17: the time tick is a no-op unless the time is not yet available, time
management is enabled, and the link is connected with the state CONNECTED: for
every elapsed value, when one of the three fails the tick calls nothing (no
`configTime`, no `getLocalTime`) and leaves the record, with the
time-available flag and the time timer, as it was. -/
theorem TimeCheck_gate_closed (s : WiFiMgr) (d : Nat) (c : Bool) (clock : Clock)
    (h : s.IsTimeAvailable = true ∨ s._time_management = false ∨ s.IsConnected c = false) :
    s.TimeCheck d c clock = (s, []) ∧
    (s.TimeCheck d c clock).2 = [] ∧
    (s.TimeCheck d c clock).1.IsTimeAvailable = s.IsTimeAvailable ∧
    (s.TimeCheck d c clock).1.time_initialization_timer = s.time_initialization_timer := by
  have e : s.TimeCheck d c clock = (s, []) := by
    unfold WiFiMgr.TimeCheck
    unfold WiFiMgr.IsTimeAvailable at h
    rcases h with h | h | h <;> simp [h]
  rw [e]
  exact ⟨rfl, rfl, rfl, rfl⟩

/-- A due time tick with time management disabled, one with the link down, and
one with the time already obtained: none calls anything. -/
theorem TimeCheck_gate_closed_witness :
    (stationConnected._time_management = false ∧
      stationSyncing.IsConnected false = false ∧ stationTimed.IsTimeAvailable = true) ∧
    (stationConnected.TimeCheck 1000 true (Clock.ok tm.sample)).2 = [] ∧
    (stationSyncing.TimeCheck 1000 false (Clock.ok tm.sample)).2 = [] ∧
    (stationTimed.TimeCheck 1000 true (Clock.ok tm.sample)).2 = [] :=
  ⟨by decide,
   (TimeCheck_gate_closed stationConnected 1000 true (Clock.ok tm.sample)
     (Or.inr (Or.inl (by decide)))).2.1,
   (TimeCheck_gate_closed stationSyncing 1000 false (Clock.ok tm.sample)
     (Or.inr (Or.inr (by decide)))).2.1,
   (TimeCheck_gate_closed stationTimed 1000 true (Clock.ok tm.sample)
     (Or.inl (by decide))).2.1⟩

/-- The record and the calls of a due time tick with the gate open. -/
theorem TimeCheck_due_eq (s : WiFiMgr) (d : Nat) (c : Bool) (clock : Clock)
    (hi : s._time_initialized = false) (hm : s._time_management = true)
    (hc : s.IsConnected c = true) (hd : s.time_initialization_timer ≤ d) :
    s.TimeCheck d c clock =
      match clock.getLocalTime with
      | none =>
        ({ s with time_initialization_timer := 1000 },
          [s.configTimeCall, Call.getLocalTime, Call.log LogLine.failed_to_obtain_time])
      | some timeinfo =>
        ({ s with _time_initialized := true, time_initialization_timer := 1000 },
          [s.configTimeCall, Call.getLocalTime] ++
            (if (clock.strftime "%A, %B %d %Y %H:%M:%S" timeinfo).1 ≠ 0 then
              [Call.log (LogLine.time_initialized_at
                (clock.strftime "%A, %B %d %Y %H:%M:%S" timeinfo).2)]
            else [])) := by
  unfold WiFiMgr.TimeCheck WiFiMgr.configTimeCall
  cases hg : clock.getLocalTime <;> simp [hi, hm, hc, hd]

/-- C18: on a time tick with the gate open on which the time timer is due, the
tick calls `configTime` and then `getLocalTime`, once; when the query succeeds
the time becomes available, when it fails the time stays unavailable and the
failure is logged; in both cases the timer is 1000 after the tick; after a
failure the gate is still open, so that a later due tick on which the link is
still connected calls `configTime` and `getLocalTime` again. -/
theorem TimeCheck_due_sync (s : WiFiMgr) (d : Nat) (c : Bool) (clock : Clock)
    (hi : s.IsTimeAvailable = false) (hm : s._time_management = true)
    (hc : s.IsConnected c = true) (hd : s.time_initialization_timer ≤ d) :
    (s.TimeCheck d c clock).2.take 2 = [s.configTimeCall, Call.getLocalTime] ∧
    (s.TimeCheck d c clock).2.count Call.getLocalTime = 1 ∧
    (clock.getLocalTime ≠ none → (s.TimeCheck d c clock).1.IsTimeAvailable = true) ∧
    (clock.getLocalTime = none →
      (s.TimeCheck d c clock).1.IsTimeAvailable = false ∧
      (s.TimeCheck d c clock).2 =
        [s.configTimeCall, Call.getLocalTime, Call.log LogLine.failed_to_obtain_time]) ∧
    (s.TimeCheck d c clock).1.time_initialization_timer = 1000 ∧
    (clock.getLocalTime = none → ∀ (d2 : Nat) (clock2 : Clock), 1000 ≤ d2 →
      ((s.TimeCheck d c clock).1.TimeCheck d2 c clock2).2.take 2
        = [s.configTimeCall, Call.getLocalTime]) := by
  unfold WiFiMgr.IsTimeAvailable at hi ⊢
  have e := TimeCheck_due_eq s d c clock hi hm hc hd
  cases hg : clock.getLocalTime with
  | none =>
    rw [hg] at e
    simp only at e
    rw [e]
    refine ⟨rfl, ?_, ?_, ?_, rfl, ?_⟩
    · simp [WiFiMgr.configTimeCall]
    · intro h
      exact absurd rfl h
    · intro _
      exact ⟨hi, rfl⟩
    · intro _ d2 clock2 hd2
      have e2 := TimeCheck_due_eq { s with time_initialization_timer := 1000 } d2 c clock2
        hi hm hc hd2
      rw [e2]
      cases clock2.getLocalTime <;> rfl
  | some t =>
    rw [hg] at e
    simp only at e
    rw [e]
    refine ⟨rfl, ?_, ?_, ?_, rfl, ?_⟩
    · split <;> simp [WiFiMgr.configTimeCall]
    · intro _
      rfl
    · intro h
      exact absurd h (by simp)
    · intro h
      exact absurd h (by simp)

/-- The connected station with time management enabled, on a due time tick
whose clock query fails, and on one whose query succeeds. -/
theorem TimeCheck_due_sync_witness :
    (stationSyncing.IsTimeAvailable = false ∧ stationSyncing._time_management = true ∧
      stationSyncing.IsConnected true = true ∧
      stationSyncing.time_initialization_timer ≤ 1000) ∧
    ((stationSyncing.TimeCheck 1000 true Clock.failing).1.IsTimeAvailable = false ∧
      (stationSyncing.TimeCheck 1000 true Clock.failing).2 =
        [stationSyncing.configTimeCall, Call.getLocalTime,
          Call.log LogLine.failed_to_obtain_time]) ∧
    (stationSyncing.TimeCheck 1000 true (Clock.ok tm.sample)).1.IsTimeAvailable = true ∧
    (stationSyncing.TimeCheck 1000 true (Clock.ok tm.sample)).1.time_initialization_timer
      = 1000 :=
  ⟨by decide,
   (TimeCheck_due_sync stationSyncing 1000 true Clock.failing (by decide) (by decide)
     (by decide) (by decide)).2.2.2.1 rfl,
   (TimeCheck_due_sync stationSyncing 1000 true (Clock.ok tm.sample) (by decide) (by decide)
     (by decide) (by decide)).2.2.1 (by simp [Clock.ok]),
   (TimeCheck_due_sync stationSyncing 1000 true (Clock.ok tm.sample) (by decide) (by decide)
     (by decide) (by decide)).2.2.2.2.1⟩

/-! ### The two timers stay between 1 and 1000 -/

/-- A connection tick reloads the retry timer with 1000 or, when the timer is
larger than the elapsed value, subtracts the elapsed value from it. -/
theorem ReconnectAttempt_timer_cases (s : WiFiMgr) (d : Nat) (c : Bool)
    (hlt : s.reconnect_timer < UINT32_MOD) :
    (s.ReconnectAttempt d c).1.reconnect_timer = 1000 ∨
    (d < s.reconnect_timer ∧
      (s.ReconnectAttempt d c).1.reconnect_timer = s.reconnect_timer - d) := by
  by_cases h0 : (!s._running || c) = true
  · left
    unfold WiFiMgr.ReconnectAttempt
    rw [if_pos h0]
  · have hrun : s._running = true := by
      cases hr : s._running <;> simp [hr] at h0 ⊢
    have hc : c = false := by
      cases c <;> simp at h0 ⊢
    subst hc
    by_cases hd : s.reconnect_timer ≤ d
    · exact Or.inl (ReconnectAttempt_down_due s d hrun hd).1
    · have hd2 : d < s.reconnect_timer := by omega
      right
      refine ⟨hd2, ?_⟩
      rw [(ReconnectAttempt_down_early s d hrun hd2).1, u32_sub_of_lt _ _ hlt hd2]

/-- A time tick leaves the time timer, reloads it with 1000 or, when the timer
is larger than the elapsed value, subtracts the elapsed value from it; it never
writes the retry timer. -/
theorem TimeCheck_timer_cases (s : WiFiMgr) (d : Nat) (c : Bool) (clock : Clock)
    (hlt : s.time_initialization_timer < UINT32_MOD) :
    (s.TimeCheck d c clock).1.reconnect_timer = s.reconnect_timer ∧
    ((s.TimeCheck d c clock).1.time_initialization_timer = s.time_initialization_timer ∨
      (s.TimeCheck d c clock).1.time_initialization_timer = 1000 ∨
      (d < s.time_initialization_timer ∧
        (s.TimeCheck d c clock).1.time_initialization_timer
          = s.time_initialization_timer - d)) := by
  unfold WiFiMgr.TimeCheck
  split
  · exact ⟨rfl, Or.inl rfl⟩
  · split
    · cases clock.getLocalTime <;> exact ⟨rfl, Or.inr (Or.inl rfl)⟩
    · rename_i h
      have hd2 : d < s.time_initialization_timer := by omega
      refine ⟨rfl, Or.inr (Or.inr ⟨hd2, ?_⟩)⟩
      simp only
      exact u32_sub_of_lt _ _ hlt hd2

/-- Every operation keeps both timers between 1 and 1000. -/
theorem Op_apply_timer_bounds (s : WiFiMgr) (op : Op)
    (h1 : 1 ≤ s.reconnect_timer ∧ s.reconnect_timer ≤ 1000)
    (h2 : 1 ≤ s.time_initialization_timer ∧ s.time_initialization_timer ≤ 1000) :
    (1 ≤ (op.apply s).reconnect_timer ∧ (op.apply s).reconnect_timer ≤ 1000) ∧
    (1 ≤ (op.apply s).time_initialization_timer ∧
      (op.apply s).time_initialization_timer ≤ 1000) := by
  cases op with
  | begin ap_mode ssid password =>
    have e : (Op.apply s (Op.begin ap_mode ssid password)).reconnect_timer
          = s.reconnect_timer ∧
        (Op.apply s (Op.begin ap_mode ssid password)).time_initialization_timer
          = s.time_initialization_timer := by
      simp only [Op.apply, WiFiMgr.begin]
      split <;> simp [Connect_fields]
    rw [e.1, e.2]
    exact ⟨h1, h2⟩
  | EnableTimeMgr g d s1 s2 s3 => exact ⟨h1, h2⟩
  | Disconnect => exact ⟨h1, h2⟩
  | IsConnected c => exact ⟨h1, h2⟩
  | IsTimeAvailable => exact ⟨h1, h2⟩
  | GetTimeFormat f c => exact ⟨h1, h2⟩
  | GetTimeInfo c => exact ⟨h1, h2⟩
  | ReconnectAttempt d c =>
    simp only [Op.apply]
    rw [(ReconnectAttempt_fields s d c).2.2.2.2]
    refine ⟨?_, h2⟩
    rcases ReconnectAttempt_timer_cases s d c (by unfold UINT32_MOD; omega) with h | h
    · omega
    · omega
  | TimeCheck d c clock =>
    simp only [Op.apply]
    obtain ⟨e1, e2⟩ := TimeCheck_timer_cases s d c clock (by unfold UINT32_MOD; omega)
    rw [e1]
    refine ⟨h1, ?_⟩
    rcases e2 with h | h | h
    · omega
    · omega
    · omega

/-- Every sequence of operations keeps both timers between 1 and 1000. -/
theorem runOps_timer_bounds (ops : List Op) (s : WiFiMgr)
    (h1 : 1 ≤ s.reconnect_timer ∧ s.reconnect_timer ≤ 1000)
    (h2 : 1 ≤ s.time_initialization_timer ∧ s.time_initialization_timer ≤ 1000) :
    (1 ≤ (runOps s ops).reconnect_timer ∧ (runOps s ops).reconnect_timer ≤ 1000) ∧
    (1 ≤ (runOps s ops).time_initialization_timer ∧
      (runOps s ops).time_initialization_timer ≤ 1000) := by
  induction ops generalizing s with
  | nil => exact ⟨h1, h2⟩
  | cons op rest ih =>
    obtain ⟨g1, g2⟩ := Op_apply_timer_bounds s op h1 h2
    simpa [runOps] using ih (op.apply s) g1 g2

/-- C19: in every state reached from the initial timers (1000 and 1000) by any
sequence of operations (connection ticks and time ticks with arbitrary elapsed
values, link truth and clock answers, and the other calls), the retry timer and
the time timer are between 1 and 1000; a connection tick from such a state
either reloads 1000 or subtracts an elapsed value smaller than the timer, so
the unsigned subtraction never wraps. -/
theorem timers_never_underflow (s : WiFiMgr) (ops : List Op)
    (h1 : s.reconnect_timer = 1000) (h2 : s.time_initialization_timer = 1000) :
    (1 ≤ (runOps s ops).reconnect_timer ∧ (runOps s ops).reconnect_timer ≤ 1000) ∧
    (1 ≤ (runOps s ops).time_initialization_timer ∧
      (runOps s ops).time_initialization_timer ≤ 1000) ∧
    (∀ (d : Nat) (c : Bool),
      ((runOps s ops).ReconnectAttempt d c).1.reconnect_timer = 1000 ∨
      (d < (runOps s ops).reconnect_timer ∧
        ((runOps s ops).ReconnectAttempt d c).1.reconnect_timer
          = (runOps s ops).reconnect_timer - d)) := by
  obtain ⟨g1, g2⟩ := runOps_timer_bounds ops s (by omega) (by omega)
  refine ⟨g1, g2, ?_⟩
  intro d c
  exact ReconnectAttempt_timer_cases _ d c (by unfold UINT32_MOD; omega)

/-- The timers after `EnableTimeMgr`, `begin`, and ticks of 300, 4294967295, 0
and 999 ms with the link down and up, from the global record. -/
theorem timers_never_underflow_witness :
    (WiFiManager.reconnect_timer = 1000 ∧ WiFiManager.time_initialization_timer = 1000) ∧
    (1 ≤ (runOps WiFiManager
        [Op.EnableTimeMgr 0 0 "pool.ntp.org" "" "", Op.begin false "net" "secret",
          Op.ReconnectAttempt 300 false, Op.ReconnectAttempt 4294967295 false,
          Op.ReconnectAttempt 0 true, Op.TimeCheck 999 true Clock.failing,
          Op.TimeCheck 999 true Clock.failing]).reconnect_timer ∧
      (runOps WiFiManager
        [Op.EnableTimeMgr 0 0 "pool.ntp.org" "" "", Op.begin false "net" "secret",
          Op.ReconnectAttempt 300 false, Op.ReconnectAttempt 4294967295 false,
          Op.ReconnectAttempt 0 true, Op.TimeCheck 999 true Clock.failing,
          Op.TimeCheck 999 true Clock.failing]).reconnect_timer ≤ 1000) ∧
    (1 ≤ (runOps WiFiManager
        [Op.EnableTimeMgr 0 0 "pool.ntp.org" "" "", Op.begin false "net" "secret",
          Op.ReconnectAttempt 300 false, Op.ReconnectAttempt 4294967295 false,
          Op.ReconnectAttempt 0 true, Op.TimeCheck 999 true Clock.failing,
          Op.TimeCheck 999 true Clock.failing]).time_initialization_timer ∧
      (runOps WiFiManager
        [Op.EnableTimeMgr 0 0 "pool.ntp.org" "" "", Op.begin false "net" "secret",
          Op.ReconnectAttempt 300 false, Op.ReconnectAttempt 4294967295 false,
          Op.ReconnectAttempt 0 true, Op.TimeCheck 999 true Clock.failing,
          Op.TimeCheck 999 true Clock.failing]).time_initialization_timer ≤ 1000) :=
  ⟨by decide,
   (timers_never_underflow WiFiManager _ (by decide) (by decide)).1,
   (timers_never_underflow WiFiManager _ (by decide) (by decide)).2.1⟩

/-! ### The link comes back outside CONNECTING -/

/-- C20 (counterexample): a connected station (`begin` in station mode, then a
tick with the link up) is in CONNECTED, a prior state other than CONNECTING;
a further tick with the link up leaves the state CONNECTED, and `IsConnected()`
is true after it, not false. -/
theorem ReconnectAttempt_link_up_connected_stays_true :
    stationConnected._state ≠ WIFIMGR_CONNECTING ∧
    (stationConnected.ReconnectAttempt 500 true).1._state = stationConnected._state ∧
    (stationConnected.ReconnectAttempt 500 true).1.IsConnected true = true ∧
    ¬ ((stationConnected.ReconnectAttempt 500 true).1.IsConnected true = false) := by
  decide

/-- C20 (amended): a connection tick that observes the link connected, or the
supervisor stopped, from a prior state other than CONNECTING leaves the state
as it was: only the retry timer (1000) and the attempt counter (1) are written
and nothing is called; `IsConnected()` answers after the tick what it answered
before: from DISCONNECTED_LOSS, INITIAL, SOFT_AP or DISCONNECTED_REQUESTED it
stays false although the driver reports connected, and from CONNECTED it stays
true. -/
theorem ReconnectAttempt_link_up_outside_connecting (s : WiFiMgr) (d : Nat) (c : Bool)
    (h0 : c = true ∨ s._running = false) (hst : s._state ≠ WIFIMGR_CONNECTING) :
    (s.ReconnectAttempt d c).1._state = s._state ∧
    (s.ReconnectAttempt d c).1 = { s with reconnect_timer := 1000, attempt_count := 1 } ∧
    (s.ReconnectAttempt d c).2 = [] ∧
    (∀ c2 : Bool, (s.ReconnectAttempt d c).1.IsConnected c2 = s.IsConnected c2) ∧
    (s._state ≠ WIFIMGR_CONNECTED → (s.ReconnectAttempt d c).1.IsConnected true = false) ∧
    (s._state = WIFIMGR_CONNECTED → (s.ReconnectAttempt d c).1.IsConnected true = true) := by
  have e := ReconnectAttempt_reset_only s d c (Or.symm h0) hst
  rw [e]
  refine ⟨rfl, rfl, rfl, fun _ => rfl, ?_, ?_⟩
  · intro h
    simp [WiFiMgr.IsConnected, h]
  · intro h
    simp [WiFiMgr.IsConnected, h]

/-- The link comes back while the station is in DISCONNECTED_LOSS with the retry
timer at 500, on a tick of 100 ms: the state stays DISCONNECTED_LOSS and
`IsConnected()` is false. -/
theorem ReconnectAttempt_link_up_outside_connecting_witness :
    (stationLost._state = WIFIMGR_DISCONNECTED_LOSS ∧ 100 < stationLost.reconnect_timer) ∧
    (stationLost.ReconnectAttempt 100 true).1._state = WIFIMGR_DISCONNECTED_LOSS ∧
    (stationLost.ReconnectAttempt 100 true).1.reconnect_timer = 1000 ∧
    (stationLost.ReconnectAttempt 100 true).1.attempt_count = 1 ∧
    (stationLost.ReconnectAttempt 100 true).1.IsConnected true = false :=
  ⟨by decide,
   (ReconnectAttempt_link_up_outside_connecting stationLost 100 true (Or.inl rfl)
     (by decide)).1,
   by decide, by decide,
   (ReconnectAttempt_link_up_outside_connecting stationLost 100 true (Or.inl rfl)
     (by decide)).2.2.2.2.1 (by decide)⟩
